import Mathlib

/-!
Verification development for the slash-command interpretation engine of the
ui_process repository (mcp-servers/chat-command-server.py and
mcp-servers/workflow-command-server.py).

The Python sources drive everything through `re` patterns evaluated with
`re.match(pattern, text, re.IGNORECASE)` plus a handful of plain string
operations.  We embed the fragment of Python regular expressions actually
used by the two servers (literals, the character classes \w \d \s \S [^"]
[-_] and `.`, greedy `+` `*` `?` over single classes, non-capturing groups,
alternation and numbered capture groups, anchored at both ends) as a
backtracking matcher that enumerates outcomes in Python's backtracking
priority order, so that the first full match coincides with `re.match`.
Character classes are taken in their ASCII reading (all inputs appearing in
the repository and in the claims are ASCII).
-/

namespace UIProcess

/-- Python `str` whitespace, ASCII reading: the characters matched by `\s`
and stripped by `str.strip()`. -/
def isPySpace (c : Char) : Bool :=
  c = ' ' || c = '\t' || c = '\n' || c = '\r' || c = '\x0b' || c = '\x0c'

/-- Python `\w`, ASCII reading: letters, digits and underscore. -/
def isWordChar (c : Char) : Bool :=
  c.isAlphanum || c = '_'

/-- Python `str.lower()`, ASCII reading. -/
def pyLower (s : String) : String :=
  String.mk (s.data.map Char.toLower)

/-- Python `str.strip()` on a character list. -/
def pyStripList (l : List Char) : List Char :=
  ((l.dropWhile isPySpace).reverse.dropWhile isPySpace).reverse

/-- Python `str.strip()`. -/
def pyStrip (s : String) : String :=
  String.mk (pyStripList s.data)

/-- Python `str.lstrip('/')`: remove every leading slash. -/
def pyLstripSlash (s : String) : String :=
  String.mk (s.data.dropWhile (· = '/'))

/-- Python `s.startswith('/')`. -/
def pyStartsWithSlash (s : String) : Bool :=
  match s.data with
  | [] => false
  | c :: _ => c = '/'

/-- Python `s.split()[0]` for a string whose first character is not
whitespace (the servers only take it after checking for a leading `/`):
the first whitespace-delimited token. -/
def pyFirstTok (s : String) : String :=
  String.mk (s.data.takeWhile (fun c => !isPySpace c))

/-- Helper for `pySplitWs`: scan the characters keeping the (reversed)
current token in `cur`; whitespace closes the token, empty pieces are
dropped. -/
def pySplitWsGo (cur : List Char) : List Char → List String
  | [] => if cur.isEmpty then [] else [String.mk cur.reverse]
  | c :: t =>
    if isPySpace c then
      if cur.isEmpty then pySplitWsGo [] t
      else String.mk cur.reverse :: pySplitWsGo [] t
    else pySplitWsGo (c :: cur) t

/-- Python `s.split()`: split on whitespace runs, dropping empty pieces. -/
def pySplitWs (s : String) : List String :=
  pySplitWsGo [] s.data

/-- Python substring containment `needle in hay` on character lists. -/
def listContainsSub (needle hay : List Char) : Bool :=
  if needle.isPrefixOf hay then true
  else match hay with
    | [] => needle.isEmpty
    | _ :: t => listContainsSub needle t

/-- Python substring containment `needle in hay` for strings. -/
def pyContainsSub (hay needle : String) : Bool :=
  listContainsSub needle.data hay.data

/-- Size of the Python set intersection `set(a) & set(b)` for strings:
the number of distinct characters of `a` that also occur in `b`. -/
def charSetInterSize (a b : String) : Nat :=
  (a.data.dedup.filter (fun c => b.data.contains c)).length

/-! ## The regular-expression fragment used by the two servers -/

/-- Character classes occurring in the servers' patterns. -/
inductive CC where
  | lit (c : Char)   -- a literal character, compared case-insensitively
  | word             -- \w
  | digit            -- \d
  | space            -- \s
  | notQuote         -- [^"]
  | notSpace         -- \S  and  [^\s]
  | dot              -- .   (any character except newline)
  | dashU            -- [-_]
deriving DecidableEq, Repr

/-- Evaluation of a character class at a character.  Literals are compared
after `re.IGNORECASE`-style lowercasing of both sides. -/
def ccEval : CC → Char → Bool
  | .lit a, c => a.toLower = c.toLower
  | .word, c => isWordChar c
  | .digit, c => c.isDigit
  | .space, c => isPySpace c
  | .notQuote, c => c ≠ '"'
  | .notSpace, c => !isPySpace c
  | .dot, c => c ≠ '\n'
  | .dashU, c => c = '-' || c = '_'

/-- The regular-expression fragment used by the servers: quantifiers only
ever apply to a single character class there, which keeps the embedding
small.  `grp i r` is the capture group that fills slot `i` of
`match.groups()` (0-based). -/
inductive RE where
  | eps
  | cls (c : CC)           -- one character of class c
  | star (c : CC)          -- c*  greedy
  | plus (c : CC)          -- c+  greedy
  | opt (r : RE)           -- (?:r)?  greedy
  | cat (r s : RE)
  | alt (r s : RE)         -- left-preferring alternation
  | grp (i : Nat) (r : RE)
deriving DecidableEq, Repr

/-- Captures: assoc list from group slot to consumed characters. -/
abbrev Caps := List (Nat × List Char)

/-- `dropsDesc s k = [s.drop k, s.drop (k-1), …, s.drop 0]`: the rests after
consuming `k, k-1, …, 0` characters, longest consumption first (greedy). -/
def dropsDesc (s : List Char) : Nat → List (List Char)
  | 0 => [s]
  | k + 1 => s.drop (k + 1) :: dropsDesc s k

/-- Concatenation of a list of outcome lists. -/
def joinList : List (List α) → List α
  | [] => []
  | l :: ls => l ++ joinList ls

/-- The backtracking matcher.  `reRun r s k` enumerates every way for `r`
to consume a prefix of `s`, in Python's backtracking priority order
(greedy quantifiers longest-first, alternation left-first, optional parts
present-first); each outcome is the remaining suffix together with the
captures accumulated so far. -/
def reRun : RE → List Char → Caps → List (List Char × Caps)
  | .eps, s, k => [(s, k)]
  | .cls c, s, k =>
    match s with
    | [] => []
    | a :: t => if ccEval c a then [(t, k)] else []
  | .star c, s, k =>
    (dropsDesc s ((s.takeWhile (ccEval c)).length)).map (fun rest => (rest, k))
  | .plus c, s, k =>
    match s with
    | [] => []
    | a :: t =>
      if ccEval c a then
        (dropsDesc t ((t.takeWhile (ccEval c)).length)).map (fun rest => (rest, k))
      else []
  | .opt r, s, k => reRun r s k ++ [(s, k)]
  | .cat r t, s, k =>
    joinList ((reRun r s k).map (fun p => reRun t p.1 p.2))
  | .alt r t, s, k => reRun r s k ++ reRun t s k
  | .grp i r, s, k =>
    (reRun r s k).map (fun p => (p.1, (i, s.take (s.length - p.1.length)) :: p.2))

/-- A whole-string match in the sense of `re.match` on a `^…$`-anchored
pattern: the first outcome (in backtracking priority order) that consumes
the entire input; `n` is the number of capture groups of the pattern and
the result is the `match.groups()` tuple (`none` = Python `None` for a
group that did not participate). -/
def reFullMatch (r : RE) (n : Nat) (s : List Char) : Option (List (Option String)) :=
  match (reRun r s []).find? (fun p => p.1.isEmpty) with
  | none => none
  | some (_, caps) =>
    some ((List.range n).map (fun i => (caps.lookup i).map String.mk))

/-! ### Smart constructors mirroring the regex source text -/

/-- Concatenation of a list of pieces, right-nested. -/
def rcat : List RE → RE
  | [] => .eps
  | [r] => r
  | r :: rs => .cat r (rcat rs)

/-- A literal string (each character case-insensitive). -/
def rlit (s : String) : RE :=
  rcat (s.data.map (fun c => RE.cls (.lit c)))

/-- `[-_]?` — the optional separator inside command words. -/
def rsep : RE := .opt (.cls .dashU)

/-- `\s+` -/
def rws : RE := .plus .space

/-- `"([^"]+)"` capturing into slot `i`. -/
def rquoted (i : Nat) : RE :=
  rcat [.cls (.lit '"'), .grp i (.plus .notQuote), .cls (.lit '"')]

/-- A grammar rule: the dict entry name, its compiled pattern, and the
number of capture groups (the length of `match.groups()`). -/
structure Rule where
  name : String
  pat : RE
  ngroups : Nat
deriving DecidableEq, Repr

namespace WorkflowServer

/-- The ordered pattern registry `self.command_patterns` of
`WorkflowCommandServer.__init__`, each entry transcribed from its regex
source text (shown in the comment). -/
def command_patterns : List Rule := [
  -- 'node-create': r'^/node[-_]?create\s+(\w+)(?:\s+(?:"([^"]+)"|(\w+)))?(?:\s+(\d+),(\d+))?$'
  ⟨"node-create",
    rcat [rlit "/node", rsep, rlit "create", rws, .grp 0 (.plus .word),
      .opt (rcat [rws, .alt (rquoted 1) (.grp 2 (.plus .word))]),
      .opt (rcat [rws, .grp 3 (.plus .digit), rlit ",", .grp 4 (.plus .digit)])], 5⟩,
  -- 'node-delete': r'^/(?:node[-_]?delete|delete[-_]?node|remove[-_]?node)\s+(.+)$'
  ⟨"node-delete",
    rcat [rlit "/",
      .alt (rcat [rlit "node", rsep, rlit "delete"])
        (.alt (rcat [rlit "delete", rsep, rlit "node"])
          (rcat [rlit "remove", rsep, rlit "node"])),
      rws, .grp 0 (.plus .dot)], 1⟩,
  -- 'node-rename': r'^/node[-_]?rename\s+"([^"]+)"\s+"([^"]+)"$'
  ⟨"node-rename",
    rcat [rlit "/node", rsep, rlit "rename", rws, rquoted 0, rws, rquoted 1], 2⟩,
  -- 'node-move': r'^/node[-_]?move\s+(.+)\s+(\d+),(\d+)$'
  ⟨"node-move",
    rcat [rlit "/node", rsep, rlit "move", rws, .grp 0 (.plus .dot), rws,
      .grp 1 (.plus .digit), rlit ",", .grp 2 (.plus .digit)], 3⟩,
  -- 'node-type': r'^/node[-_]?type\s+(.+)\s+(\w+)$'
  ⟨"node-type",
    rcat [rlit "/node", rsep, rlit "type", rws, .grp 0 (.plus .dot), rws,
      .grp 1 (.plus .word)], 2⟩,
  -- 'task-create': r'^/(?:task[-_]?create|add[-_]?task|create[-_]?task)\s+"([^"]+)"(?:\s+"([^"]+)")?(?:\s+(\w+))?$'
  ⟨"task-create",
    rcat [rlit "/",
      .alt (rcat [rlit "task", rsep, rlit "create"])
        (.alt (rcat [rlit "add", rsep, rlit "task"])
          (rcat [rlit "create", rsep, rlit "task"])),
      rws, rquoted 0, .opt (rcat [rws, rquoted 1]),
      .opt (rcat [rws, .grp 2 (.plus .word)])], 3⟩,
  -- 'task-delete': r'^/task[-_]?delete\s+(.+)$'
  ⟨"task-delete",
    rcat [rlit "/task", rsep, rlit "delete", rws, .grp 0 (.plus .dot)], 1⟩,
  -- 'task-move': r'^/task[-_]?move\s+(.+)\s+"([^"]+)"$'
  ⟨"task-move",
    rcat [rlit "/task", rsep, rlit "move", rws, .grp 0 (.plus .dot), rws,
      rquoted 1], 2⟩,
  -- 'task-advance': r'^/task[-_]?advance\s+(.+)\s+"([^"]+)"$'
  ⟨"task-advance",
    rcat [rlit "/task", rsep, rlit "advance", rws, .grp 0 (.plus .dot), rws,
      rquoted 1], 2⟩,
  -- 'task-priority': r'^/task[-_]?priority\s+(.+)\s+(\w+)$'
  ⟨"task-priority",
    rcat [rlit "/task", rsep, rlit "priority", rws, .grp 0 (.plus .dot), rws,
      .grp 1 (.plus .word)], 2⟩,
  -- 'flowline-create': r'^/(?:flowline[-_]?create|connect)\s+"([^"]+)"\s+"([^"]+)"(?:\s+(\w+))?$'
  ⟨"flowline-create",
    rcat [rlit "/",
      .alt (rcat [rlit "flowline", rsep, rlit "create"]) (rlit "connect"),
      rws, rquoted 0, rws, rquoted 1,
      .opt (rcat [rws, .grp 2 (.plus .word)])], 3⟩,
  -- 'flowline-delete': r'^/(?:flowline[-_]?delete|disconnect)\s+"([^"]+)"\s+"([^"]+)"$'
  ⟨"flowline-delete",
    rcat [rlit "/",
      .alt (rcat [rlit "flowline", rsep, rlit "delete"]) (rlit "disconnect"),
      rws, rquoted 0, rws, rquoted 1], 2⟩,
  -- 'flowline-type': r'^/flowline[-_]?type\s+"([^"]+)"\s+"([^"]+)"\s+(\w+)$'
  ⟨"flowline-type",
    rcat [rlit "/flowline", rsep, rlit "type", rws, rquoted 0, rws, rquoted 1,
      rws, .grp 2 (.plus .word)], 3⟩,
  -- 'disconnect-all': r'^/disconnect\s+all$'
  ⟨"disconnect-all", rcat [rlit "/disconnect", rws, rlit "all"], 0⟩,
  -- 'tag-create': r'^/tag[-_]?create\s+"([^"]+)"(?:\s+(\w+))?(?:\s+(.+))?$'
  ⟨"tag-create",
    rcat [rlit "/tag", rsep, rlit "create", rws, rquoted 0,
      .opt (rcat [rws, .grp 1 (.plus .word)]),
      .opt (rcat [rws, .grp 2 (.plus .dot)])], 3⟩,
  -- 'tag-add': r'^/tag[-_]?add\s+"([^"]+)"\s+(.+)$'
  ⟨"tag-add",
    rcat [rlit "/tag", rsep, rlit "add", rws, rquoted 0, rws,
      .grp 1 (.plus .dot)], 2⟩,
  -- 'tag-remove': r'^/tag[-_]?remove\s+"([^"]+)"\s+(.+)$'
  ⟨"tag-remove",
    rcat [rlit "/tag", rsep, rlit "remove", rws, rquoted 0, rws,
      .grp 1 (.plus .dot)], 2⟩,
  -- 'tag-list': r'^/tag[-_]?list(?:\s+(.+))?$'
  ⟨"tag-list",
    rcat [rlit "/tag", rsep, rlit "list", .opt (rcat [rws, .grp 0 (.plus .dot)])], 1⟩,
  -- 'workflow-save': r'^/workflow[-_]?save(?:\s+"([^"]+)")?$'
  ⟨"workflow-save",
    rcat [rlit "/workflow", rsep, rlit "save", .opt (rcat [rws, rquoted 0])], 1⟩,
  -- 'workflow-load': r'^/workflow[-_]?load\s+"([^"]+)"$'
  ⟨"workflow-load",
    rcat [rlit "/workflow", rsep, rlit "load", rws, rquoted 0], 1⟩,
  -- 'workflow-export': r'^/workflow[-_]?export(?:\s+(\w+))?$'
  ⟨"workflow-export",
    rcat [rlit "/workflow", rsep, rlit "export",
      .opt (rcat [rws, .grp 0 (.plus .word)])], 1⟩,
  -- 'workflow-clear': r'^/workflow[-_]?(?:clear|reset)(?:\s+(yes|confirm))?$'
  ⟨"workflow-clear",
    rcat [rlit "/workflow", rsep, .alt (rlit "clear") (rlit "reset"),
      .opt (rcat [rws, .grp 0 (.alt (rlit "yes") (rlit "confirm"))])], 1⟩,
  -- 'workflow-status': r'^/workflow[-_]?status$'
  ⟨"workflow-status", rcat [rlit "/workflow", rsep, rlit "status"], 0⟩,
  -- 'workflow-stats': r'^/workflow[-_]?stats$'
  ⟨"workflow-stats", rcat [rlit "/workflow", rsep, rlit "stats"], 0⟩,
  -- 'matrix-enter': r'^/matrix[-_]?enter$'
  ⟨"matrix-enter", rcat [rlit "/matrix", rsep, rlit "enter"], 0⟩,
  -- 'matrix-exit': r'^/matrix[-_]?exit$'
  ⟨"matrix-exit", rcat [rlit "/matrix", rsep, rlit "exit"], 0⟩,
  -- 'matrix-move': r'^/matrix[-_]?move\s+(.+)\s+(\w+[-_]\w+)$'
  ⟨"matrix-move",
    rcat [rlit "/matrix", rsep, rlit "move", rws, .grp 0 (.plus .dot), rws,
      .grp 1 (rcat [.plus .word, .cls .dashU, .plus .word])], 2⟩,
  -- 'matrix-show': r'^/matrix[-_]?show(?:\s+(\w+[-_]\w+))?$'
  ⟨"matrix-show",
    rcat [rlit "/matrix", rsep, rlit "show",
      .opt (rcat [rws, .grp 0 (rcat [.plus .word, .cls .dashU, .plus .word])])], 1⟩,
  -- 'view-zoom': r'^/view[-_]?zoom\s+(.+)$'
  ⟨"view-zoom", rcat [rlit "/view", rsep, rlit "zoom", rws, .grp 0 (.plus .dot)], 1⟩,
  -- 'view-center': r'^/view[-_]?center(?:\s+"([^"]+)")?$'
  ⟨"view-center",
    rcat [rlit "/view", rsep, rlit "center", .opt (rcat [rws, rquoted 0])], 1⟩,
  -- 'view-focus': r'^/view[-_]?focus\s+(.+)$'
  ⟨"view-focus", rcat [rlit "/view", rsep, rlit "focus", rws, .grp 0 (.plus .dot)], 1⟩,
  -- 'select': r'^/select\s+(.+)$'
  ⟨"select", rcat [rlit "/select", rws, .grp 0 (.plus .dot)], 1⟩,
  -- 'select-all': r'^/select[-_]?all(?:\s+(\w+))?$'
  ⟨"select-all",
    rcat [rlit "/select", rsep, rlit "all", .opt (rcat [rws, .grp 0 (.plus .word)])], 1⟩,
  -- 'select-none': r'^/select[-_]?none$'
  ⟨"select-none", rcat [rlit "/select", rsep, rlit "none"], 0⟩,
  -- 'select-by': r'^/select[-_]?by\s+(.+)$'
  ⟨"select-by", rcat [rlit "/select", rsep, rlit "by", rws, .grp 0 (.plus .dot)], 1⟩,
  -- 'goto': r'^/goto\s+"([^"]+)"$'
  ⟨"goto", rcat [rlit "/goto", rws, rquoted 0], 1⟩,
  -- 'find': r'^/find\s+"([^"]+)"$'
  ⟨"find", rcat [rlit "/find", rws, rquoted 0], 1⟩,
  -- 'next': r'^/next(?:\s+(\w+))?$'
  ⟨"next", rcat [rlit "/next", .opt (rcat [rws, .grp 0 (.plus .word)])], 1⟩,
  -- 'previous': r'^/previous(?:\s+(\w+))?$'
  ⟨"previous", rcat [rlit "/previous", .opt (rcat [rws, .grp 0 (.plus .word)])], 1⟩,
  -- 'batch-create': r'^/batch[-_]?create\s+(\w+)\s+(.+)$'
  ⟨"batch-create",
    rcat [rlit "/batch", rsep, rlit "create", rws, .grp 0 (.plus .word), rws,
      .grp 1 (.plus .dot)], 2⟩,
  -- 'batch-connect': r'^/batch[-_]?connect\s+"([^"]+)"\s+"([^"]+)"$'
  ⟨"batch-connect",
    rcat [rlit "/batch", rsep, rlit "connect", rws, rquoted 0, rws, rquoted 1], 2⟩,
  -- 'batch-tag': r'^/batch[-_]?tag\s+"([^"]+)"\s+(.+)$'
  ⟨"batch-tag",
    rcat [rlit "/batch", rsep, rlit "tag", rws, rquoted 0, rws,
      .grp 1 (.plus .dot)], 2⟩]

end WorkflowServer

namespace ChatServer

/-- The ordered pattern registry `self.command_patterns` of
`ChatCommandServer.__init__`. -/
def command_patterns : List Rule := [
  -- 'note': r'^/note(?:\s+(.+))?$'
  ⟨"note", rcat [rlit "/note", .opt (rcat [rws, .grp 0 (.plus .dot)])], 1⟩,
  -- 'note-create': r'^/note[-_]?create\s+(.+)$'
  ⟨"note-create", rcat [rlit "/note", rsep, rlit "create", rws, .grp 0 (.plus .dot)], 1⟩,
  -- 'note-search': r'^/note[-_]?search\s+(.+)$'
  ⟨"note-search", rcat [rlit "/note", rsep, rlit "search", rws, .grp 0 (.plus .dot)], 1⟩,
  -- 'note-find': r'^/note[-_]?find\s+(.+)$'
  ⟨"note-find", rcat [rlit "/note", rsep, rlit "find", rws, .grp 0 (.plus .dot)], 1⟩,
  -- 'note-tag': r'^/note[-_]?tag\s+(\S+)\s+(.+)$'
  ⟨"note-tag",
    rcat [rlit "/note", rsep, rlit "tag", rws, .grp 0 (.plus .notSpace), rws,
      .grp 1 (.plus .dot)], 2⟩,
  -- 'note-list': r'^/note[-_]?list(?:\s+(.*))?$'
  ⟨"note-list",
    rcat [rlit "/note", rsep, rlit "list", .opt (rcat [rws, .grp 0 (.star .dot)])], 1⟩,
  -- 'note-link': r'^/note[-_]?link\s+(\S+)\s+(\S+)$'
  ⟨"note-link",
    rcat [rlit "/note", rsep, rlit "link", rws, .grp 0 (.plus .notSpace), rws,
      .grp 1 (.plus .notSpace)], 2⟩,
  -- 'opp': r'^/opp(?:\s+(.+))?$'
  ⟨"opp", rcat [rlit "/opp", .opt (rcat [rws, .grp 0 (.plus .dot)])], 1⟩,
  -- 'opp-create': r'^/opp[-_]?create\s+(.+)$'
  ⟨"opp-create", rcat [rlit "/opp", rsep, rlit "create", rws, .grp 0 (.plus .dot)], 1⟩,
  -- 'opp-list': r'^/opp[-_]?list(?:\s+(.*))?$'
  ⟨"opp-list",
    rcat [rlit "/opp", rsep, rlit "list", .opt (rcat [rws, .grp 0 (.star .dot)])], 1⟩,
  -- 'opp-link': r'^/opp[-_]?link\s+(\S+)\s+(\S+)$'
  ⟨"opp-link",
    rcat [rlit "/opp", rsep, rlit "link", rws, .grp 0 (.plus .notSpace), rws,
      .grp 1 (.plus .notSpace)], 2⟩,
  -- 'opp-search': r'^/opp[-_]?search\s+(.+)$'
  ⟨"opp-search", rcat [rlit "/opp", rsep, rlit "search", rws, .grp 0 (.plus .dot)], 1⟩,
  -- 'task-note': r'^/task[-_]?note\s+(\S+)\s+(.+)$'
  ⟨"task-note",
    rcat [rlit "/task", rsep, rlit "note", rws, .grp 0 (.plus .notSpace), rws,
      .grp 1 (.plus .dot)], 2⟩,
  -- 'task-link': r'^/task[-_]?link\s+(\S+)\s+(\S+)$'
  ⟨"task-link",
    rcat [rlit "/task", rsep, rlit "link", rws, .grp 0 (.plus .notSpace), rws,
      .grp 1 (.plus .notSpace)], 2⟩,
  -- 'analyze': r'^/analyze\s+(.+)$'
  ⟨"analyze", rcat [rlit "/analyze", rws, .grp 0 (.plus .dot)], 1⟩,
  -- 'suggest': r'^/suggest(?:\s+(.+))?$'
  ⟨"suggest", rcat [rlit "/suggest", .opt (rcat [rws, .grp 0 (.plus .dot)])], 1⟩,
  -- 'associate': r'^/associate\s+(\S+)\s+(\S+)$'
  ⟨"associate",
    rcat [rlit "/associate", rws, .grp 0 (.plus .notSpace), rws,
      .grp 1 (.plus .notSpace)], 2⟩,
  -- 'sql': r'^/sql\s+(?:"([^"]+)"|(.+))$'
  ⟨"sql", rcat [rlit "/sql", rws, .alt (rquoted 0) (.grp 1 (.plus .dot))], 2⟩,
  -- 'db-query': r'^/db[-_]?query\s+(?:"([^"]+)"|(.+))$'
  ⟨"db-query",
    rcat [rlit "/db", rsep, rlit "query", rws,
      .alt (rquoted 0) (.grp 1 (.plus .dot))], 2⟩,
  -- 'help': r'^/help(?:\s+(.*))?$'
  ⟨"help", rcat [rlit "/help", .opt (rcat [rws, .grp 0 (.star .dot)])], 1⟩,
  -- 'commands': r'^/commands$'
  ⟨"commands", rlit "/commands", 0⟩,
  -- 'status': r'^/status$'
  ⟨"status", rlit "/status", 0⟩]

end ChatServer

/-! ## Shared parsing infrastructure -/

/-- The first rule of the registry whose pattern matches the whole input,
with its `match.groups()` tuple — the `for command_name, pattern in
self.command_patterns.items(): match = re.match(...)` loop that returns on
the first hit. -/
def findRuleMatch : List Rule → List Char → Option (String × List (Option String))
  | [], _ => none
  | r :: rs, s =>
    match reFullMatch r.pat r.ngroups s with
    | some gs => some (r.name, gs)
    | none => findRuleMatch rs s

/-- Python list indexing `l[i]`, which raises `IndexError` when out of
range; used for `input_text.split()[0]`. -/
def pyIdx (l : List α) (i : Nat) : Except String α :=
  match l.get? i with
  | some a => .ok a
  | none => .error "IndexError: list index out of range"

/-- Python `int(s)` on a string: optional sign and decimal digits after
stripping whitespace; anything else raises `ValueError`. -/
def pyInt (s : String) : Except String Int :=
  let digitsVal : List Char → Int :=
    fun ds => ds.foldl (fun a c => a * 10 + ((c.toNat - '0'.toNat : Nat) : Int)) 0
  match pyStripList s.data with
  | '-' :: ds =>
    if ds ≠ [] ∧ ds.all (·.isDigit) then .ok (-(digitsVal ds))
    else .error "ValueError: invalid literal for int()"
  | '+' :: ds =>
    if ds ≠ [] ∧ ds.all (·.isDigit) then .ok (digitsVal ds)
    else .error "ValueError: invalid literal for int()"
  | ds =>
    if ds ≠ [] ∧ ds.all (·.isDigit) then .ok (digitsVal ds)
    else .error "ValueError: invalid literal for int()"

/-- `int` on the digit-only capture of `limit:(\d+)`. -/
def natOfDigits (s : String) : Nat :=
  s.data.foldl (fun a c => a * 10 + (c.toNat - '0'.toNat)) 0

/-- The filter record produced by `_parse_list_filters`: each key is
present in the Python dict exactly when the corresponding field is
`some`. -/
structure FilterSet where
  tags : Option (List String) := Option.none
  opportunity_id : Option String := Option.none
  task_id : Option String := Option.none
  limit : Option Nat := Option.none
deriving DecidableEq, Repr

/-- A parameter value as stored in the Python `parameters` dicts:
a string, `None`, a bool, a list of strings, or a nested filter dict. -/
inductive PValue where
  | str (v : String)
  | none
  | bool (b : Bool)
  | strList (vs : List String)
  | filters (f : FilterSet)
deriving DecidableEq, Repr

/-- `groups[i] if groups[i] else None`: a falsy capture (absent or empty)
becomes `None`. -/
def pvOrNone : Option String → PValue
  | some v => if v = "" then .none else .str v
  | Option.none => .none

/-- `groups[i]` stored as-is (`None` stays `None`). -/
def pvRaw : Option String → PValue
  | some v => .str v
  | Option.none => .none

/-- `groups[i] if groups[i] else d`: a falsy capture is replaced by the
documented default. -/
def pyOrDefault (g : Option String) (d : String) : String :=
  match g with
  | some v => if v = "" then d else v
  | Option.none => d

/-- Python truthiness of a parameter value (`if value:`). -/
def pvTruthy : PValue → Bool
  | .str v => v ≠ ""
  | .none => false
  | .bool b => b
  | .strList vs => !vs.isEmpty
  | .filters f =>
    f.tags.isSome || f.opportunity_id.isSome || f.task_id.isSome || f.limit.isSome

/-- Python `value in list-of-strings`: only a string value can be equal. -/
def pvInStrList (pv : PValue) (l : List String) : Bool :=
  match pv with
  | .str v => l.contains v
  | _ => false

/-- Python `f"{value}"` for the parameter values that can reach an error
message. -/
def pvFormat : PValue → String
  | .str v => v
  | .none => "None"
  | .bool b => if b then "True" else "False"
  | .strList _ => ""
  | .filters _ => ""

/-- `parameters.get(key)`: `None` both for a missing key and for a stored
`None`. -/
def pget (ps : List (String × PValue)) (key : String) : PValue :=
  match List.lookup key ps with
  | some pv => pv
  | Option.none => .none

/-- `parameters.get(key, default-string)`: the default only replaces a
missing key, a stored `None` is returned as `None`. -/
def pgetD (ps : List (String × PValue)) (key d : String) : PValue :=
  match List.lookup key ps with
  | some pv => pv
  | Option.none => .str d

/-- `groups[i]` of a `match.groups()` tuple. -/
def gidx (gs : List (Option String)) (i : Nat) : Option String :=
  (gs.getD i Option.none)

/-- The similarity score of `_suggest_similar_workflow_command` (and of
its identical twin `_suggest_similar_command` in the chat server):
`len(set(unknown) & set(cmd_clean)) / max(len(unknown), len(cmd_clean))`,
both sides lowercased with leading slashes stripped. -/
def similarityScore (unknown cmd : String) : ℚ :=
  let cmd_clean := pyLstripSlash (pyLower cmd)
  (charSetInterSize unknown cmd_clean : ℚ) /
    ((max unknown.length cmd_clean.length : ℕ) : ℚ)

/-- Numerator of the similarity score (`common`). -/
def scoreNum (unknown cmd : String) : Nat :=
  charSetInterSize unknown (pyLstripSlash (pyLower cmd))

/-- Denominator of the similarity score (`max(len(unknown), len(cmd_clean))`). -/
def scoreDen (unknown cmd : String) : Nat :=
  max unknown.length (pyLstripSlash (pyLower cmd)).length

/-- The scoring loop shared by `_suggest_similar_workflow_command` and
`_suggest_similar_command`: iterate the vocabulary keeping the best score
so far; a candidate replaces it only when its score is strictly greater
and strictly above `0.3`.  The running best score `common / max(...)` is
carried as its numerator/denominator pair (initially `0 = 0/1`) and the
comparisons `score > best_score` and `score > 0.3` are evaluated by
cross-multiplication, which agrees exactly with the source's comparisons
(the denominators are positive, and for these small quotients the float
arithmetic of the source is also exact for ordering). -/
def suggestGo (unknown : String) : List String → Option String → Nat × Nat → Option String
  | [], best_match, _ => best_match
  | cmd :: rest, best_match, best =>
    let common := scoreNum unknown cmd
    let len := scoreDen unknown cmd
    if common * best.2 > best.1 * len ∧ 10 * common > 3 * len then
      suggestGo unknown rest (some cmd) (common, len)
    else
      suggestGo unknown rest best_match best

namespace WorkflowServer

/-- `self.command_descriptions` of `WorkflowCommandServer.__init__`:
the help table whose keys are the suggestion vocabulary. -/
def command_descriptions : List (String × String) := [
  ("/node-create <type> [name] [x,y]", "Create a new node"),
  ("/node-delete <identifier>", "Delete a node"),
  ("/node-rename <old> <new>", "Rename a node"),
  ("/node-move <node> <x,y>", "Move a node to position"),
  ("/node-type <node> <type>", "Change node type"),
  ("/task-create <name> [node] [priority]", "Create a new task"),
  ("/task-delete <identifier>", "Delete a task"),
  ("/task-move <task> <target-node>", "Move task to node"),
  ("/task-advance <task> <target-node>", "Advance task to node"),
  ("/task-priority <task> <priority>", "Set task priority"),
  ("/connect <source> <target> [type]", "Create flowline between nodes"),
  ("/disconnect <source> <target>", "Remove flowline"),
  ("/flowline-type <source> <target> <type>", "Change flowline type"),
  ("/disconnect all", "Remove all flowlines"),
  ("/tag-create <name> [category] [props]", "Create a new tag"),
  ("/tag-add <tag> <element>", "Add tag to element"),
  ("/tag-remove <tag> <element>", "Remove tag from element"),
  ("/tag-list [filter]", "List tags"),
  ("/workflow-save [filename]", "Save current workflow"),
  ("/workflow-load <filename>", "Load workflow file"),
  ("/workflow-export [format]", "Export workflow"),
  ("/workflow-clear [confirm]", "Clear current workflow"),
  ("/workflow-status", "Show workflow status"),
  ("/workflow-stats", "Show detailed statistics"),
  ("/matrix-enter", "Enter Eisenhower Matrix mode"),
  ("/matrix-exit", "Exit matrix mode"),
  ("/matrix-move <task> <quadrant>", "Move task in matrix"),
  ("/matrix-show [quadrant]", "Show matrix quadrant"),
  ("/view-zoom <level|in|out|fit>", "Zoom view"),
  ("/view-center [node]", "Center view on element"),
  ("/view-focus <element>", "Focus on element"),
  ("/select <identifier>", "Select element"),
  ("/select-all [type]", "Select all elements of type"),
  ("/select-none", "Clear selection"),
  ("/select-by <criteria>", "Select by criteria"),
  ("/goto <name>", "Navigate to element"),
  ("/find <name>", "Find element by name"),
  ("/next [type]", "Navigate to next element"),
  ("/previous [type]", "Navigate to previous element"),
  ("/batch-create <type> <list>", "Create multiple elements"),
  ("/batch-connect <sources> <targets>", "Create multiple connections"),
  ("/batch-tag <tag> <elements>", "Tag multiple elements")]

/-- `self.valid_values` of `WorkflowCommandServer.__init__`. -/
def valid_values : List (String × List String) := [
  ("node_types", ["process", "decision", "terminal", "start"]),
  ("flowline_types", ["sequence", "conditional", "error", "parallel"]),
  ("task_priorities", ["low", "normal", "high", "urgent"]),
  ("matrix_quadrants",
    ["urgent-important", "urgent-not-important",
     "not-urgent-important", "not-urgent-not-important"]),
  ("view_zoom", ["in", "out", "fit", "reset"]),
  ("element_types", ["node", "task", "flowline", "tag"]),
  ("export_formats", ["json", "png", "svg", "pdf"])]

/-- `self.valid_values[key]` (every key used by the validator is present). -/
def validValuesAt (key : String) : List String :=
  match List.lookup key valid_values with
  | some l => l
  | Option.none => []

/-- `_suggest_similar_workflow_command`. -/
def suggest_similar_workflow_command (unknown_command : String) : Option String :=
  let unknown := pyLstripSlash (pyLower unknown_command)
  suggestGo unknown (command_descriptions.map Prod.fst) Option.none (0, 1)

/-- The `name.replace('-', '_')` of the default action case. -/
def dashToUnderscore (s : String) : String :=
  String.mk (s.data.map (fun c => if c = '-' then '_' else c))

/-- `_parse_workflow_match`, the per-command extraction rules: from the
command name and the `groups()` tuple to the `parameters` dict and the
`action` tag.  `gidx gs i` is `groups[i]`; every branch only touches slots
below the group count of its own pattern. -/
def parse_workflow_match (command_name : String) (gs : List (Option String)) :
    List (String × PValue) × String :=
  if command_name = "node-create" then
    -- name = groups[1] if groups[1] else (groups[2] if groups[2] else None)
    let nm :=
      match gidx gs 1 with
      | some v => if v = "" then pvOrNone (gidx gs 2) else .str v
      | Option.none => pvOrNone (gidx gs 2)
    ([("type", .str (pyOrDefault (gidx gs 0) "process")), ("name", nm),
      ("x", pvOrNone (gidx gs 3)), ("y", pvOrNone (gidx gs 4))], "create_node")
  else if command_name = "node-delete" then
    ([("identifier", pvRaw (gidx gs 0))], "delete_node")
  else if command_name = "node-rename" then
    ([("old_name", pvRaw (gidx gs 0)), ("new_name", pvRaw (gidx gs 1))], "rename_node")
  else if command_name = "node-move" then
    ([("identifier", pvRaw (gidx gs 0)), ("x", pvRaw (gidx gs 1)),
      ("y", pvRaw (gidx gs 2))], "move_node")
  else if command_name = "task-create" then
    ([("name", pvRaw (gidx gs 0)), ("node", pvOrNone (gidx gs 1)),
      ("priority", .str (pyOrDefault (gidx gs 2) "normal"))], "create_task")
  else if command_name = "flowline-create" then
    ([("source", pvRaw (gidx gs 0)), ("target", pvRaw (gidx gs 1)),
      ("type", .str (pyOrDefault (gidx gs 2) "sequence"))], "create_flowline")
  else if command_name = "workflow-save" then
    ([("filename", pvOrNone (gidx gs 0))], "save_workflow")
  else if command_name = "workflow-status" then
    ([], "show_workflow_status")
  else if command_name = "matrix-enter" then
    ([], "enter_matrix_mode")
  else if command_name = "matrix-exit" then
    ([], "exit_matrix_mode")
  else if command_name = "matrix-move" then
    ([("task", pvRaw (gidx gs 0)), ("quadrant", pvRaw (gidx gs 1))], "move_task_in_matrix")
  else if command_name = "task-delete" then
    ([("identifier", pvRaw (gidx gs 0))], "delete_task")
  else if command_name = "task-move" then
    ([("task", pvRaw (gidx gs 0)), ("target_node", pvRaw (gidx gs 1))], "move_task")
  else if command_name = "task-advance" then
    ([("task", pvRaw (gidx gs 0)), ("target_node", pvRaw (gidx gs 1))], "advance_task")
  else if command_name = "task-priority" then
    ([("task", pvRaw (gidx gs 0)), ("priority", pvRaw (gidx gs 1))], "set_task_priority")
  else if command_name = "flowline-delete" then
    ([("source", pvRaw (gidx gs 0)), ("target", pvRaw (gidx gs 1))], "delete_flowline")
  else if command_name = "flowline-type" then
    ([("source", pvRaw (gidx gs 0)), ("target", pvRaw (gidx gs 1)),
      ("type", pvRaw (gidx gs 2))], "change_flowline_type")
  else if command_name = "disconnect-all" then
    ([], "disconnect_all_flowlines")
  else if command_name = "tag-create" then
    ([("name", pvRaw (gidx gs 0)), ("category", .str (pyOrDefault (gidx gs 1) "general")),
      ("properties", pvOrNone (gidx gs 2))], "create_tag")
  else if command_name = "tag-add" then
    ([("tag", pvRaw (gidx gs 0)), ("element", pvRaw (gidx gs 1))], "add_tag")
  else if command_name = "tag-remove" then
    ([("tag", pvRaw (gidx gs 0)), ("element", pvRaw (gidx gs 1))], "remove_tag")
  else if command_name = "tag-list" then
    ([("filter", pvOrNone (gidx gs 0))], "list_tags")
  else if command_name = "workflow-load" then
    ([("filename", pvRaw (gidx gs 0))], "load_workflow")
  else if command_name = "workflow-export" then
    ([("format", .str (pyOrDefault (gidx gs 0) "json"))], "export_workflow")
  else if command_name = "workflow-clear" then
    -- confirmed = (groups[0] == 'yes' or groups[0] == 'confirm') if groups[0] else False
    let confirmed :=
      match gidx gs 0 with
      | some v => if v = "" then false else (v = "yes" || v = "confirm")
      | Option.none => false
    ([("confirmed", .bool confirmed)], "clear_workflow")
  else if command_name = "workflow-stats" then
    ([], "show_workflow_stats")
  else if command_name = "view-zoom" then
    ([("level", pvRaw (gidx gs 0))], "zoom_view")
  else if command_name = "view-center" then
    ([("target", pvOrNone (gidx gs 0))], "center_view")
  else if command_name = "view-focus" then
    ([("element", pvRaw (gidx gs 0))], "focus_element")
  else if command_name = "select" then
    ([("target", pvRaw (gidx gs 0))], "select_element")
  else if command_name = "select-all" then
    ([("type", pvOrNone (gidx gs 0))], "select_all")
  else if command_name = "select-none" then
    ([], "clear_selection")
  else if command_name = "select-by" then
    ([("criteria", pvRaw (gidx gs 0))], "select_by_criteria")
  else if command_name = "goto" then
    ([("target", pvRaw (gidx gs 0))], "navigate_to_element")
  else if command_name = "find" then
    ([("query", pvRaw (gidx gs 0))], "find_element")
  else if command_name = "next" then
    ([("type", pvOrNone (gidx gs 0))], "navigate_next")
  else if command_name = "previous" then
    ([("type", pvOrNone (gidx gs 0))], "navigate_previous")
  else if command_name = "batch-create" then
    ([("type", pvRaw (gidx gs 0)), ("data", pvRaw (gidx gs 1))], "batch_create_elements")
  else if command_name = "batch-connect" then
    ([("sources", pvRaw (gidx gs 0)), ("targets", pvRaw (gidx gs 1))], "batch_connect_elements")
  else if command_name = "batch-tag" then
    ([("tag", pvRaw (gidx gs 0)), ("elements", pvRaw (gidx gs 1))], "batch_tag_elements")
  else
    ([], "handle_" ++ dashToUnderscore command_name)

/-- A successfully matched workflow command: the dict built by
`_parse_workflow_match` plus the `original_input` added by the caller. -/
structure WfCommand where
  command_type : String
  parameters : List (String × PValue)
  action : String
  raw_params : List (Option String)
  original_input : String
deriving DecidableEq, Repr

/-- The distinct return shapes of `parse_workflow_command`, one constructor
per `return` statement. -/
inductive WfParseResult where
  | text                                        -- not a '/'-input
  | matched (c : WfCommand)                     -- a pattern matched
  | unknownWorkflow (command : String) (error : String) (suggestion : Option String)
  | nonWorkflow                                 -- no keyword either
  | errorResult (error : String)                -- the except-branch
deriving DecidableEq, Repr

/-- The `is_workflow_command` field of each return dict. -/
def WfParseResult.is_workflow_command : WfParseResult → Bool
  | .text => false
  | .matched _ => true
  | .unknownWorkflow _ _ _ => true
  | .nonWorkflow => false
  | .errorResult _ => false

/-- The `type` field of each return dict (`none` when the dict carries no
`type` key, as for a matched command). -/
def WfParseResult.rtype : WfParseResult → Option String
  | .text => some "text"
  | .matched _ => Option.none
  | .unknownWorkflow _ _ _ => some "unknown_workflow_command"
  | .nonWorkflow => some "non_workflow_command"
  | .errorResult _ => some "error"

/-- The `should_process_with_llm` field of each return dict. -/
def WfParseResult.should_process_with_llm : WfParseResult → Option Bool
  | .text => some true
  | .matched _ => Option.none
  | .unknownWorkflow _ _ _ => some false
  | .nonWorkflow => some false
  | .errorResult _ => some true

/-- The keyword list of the unknown-workflow-command fallback in
`parse_workflow_command`. -/
def workflow_keywords : List String :=
  ["node", "task", "flow", "tag", "workflow", "matrix", "select", "view",
   "create", "delete", "move", "connect", "save", "load"]

/-- Body of `parse_workflow_command` (everything inside the `try`). -/
def parse_workflow_command_core (input_text : String) : Except String WfParseResult := do
  let t := pyStrip input_text
  if !pyStartsWithSlash t then
    return .text
  match findRuleMatch command_patterns t.data with
  | some (name, gs) =>
    let pa := parse_workflow_match name gs
    return .matched ⟨name, pa.1, pa.2, gs, t⟩
  | Option.none =>
    if workflow_keywords.any (fun kw => pyContainsSub (pyLower t) kw) then do
      let tok ← pyIdx (pySplitWs t) 0
      return .unknownWorkflow tok ("Unknown workflow command: " ++ tok)
        (suggest_similar_workflow_command tok)
    else
      return .nonWorkflow

/-- `parse_workflow_command`: the `try`-body with the `except` boundary
that converts an internal exception into the `error` result. -/
def parse_workflow_command (input_text : String) : WfParseResult :=
  match parse_workflow_command_core input_text with
  | .ok r => r
  | .error e => .errorResult e

/-- `_generate_workflow_suggestions`. -/
def generate_workflow_suggestions (command_type : Option String)
    (parameters : List (String × PValue)) : List String :=
  if command_type = some "node-create" then
    (if !pvTruthy (pget parameters "name") then
      ["Consider adding a descriptive name in quotes"] else []) ++
    (if !pvTruthy (pget parameters "x") || !pvTruthy (pget parameters "y") then
      ["Add x,y coordinates to position the node precisely"] else [])
  else if command_type = some "flowline-create" then
    if pget parameters "type" = .str "sequence" then
      ["Consider using 'conditional' for decision-based flows"] else []
  else if command_type = some "task-create" then
    if !pvTruthy (pget parameters "node") then
      ["Specify target node to automatically associate the task"] else []
  else []

/-- `int()` applied to a parameter value as in the position check. -/
def pvInt : PValue → Except String Int
  | .str v => pyInt v
  | .bool b => .ok (if b then 1 else 0)
  | _ => .error "TypeError: int() argument"

/-- The return shapes of `validate_workflow_command`. -/
inductive WfValidation where
  | passThrough                      -- {'valid': True, 'type': 'non_workflow', 'action': 'pass_through'}
  | result (valid : Bool) (errors warnings suggestions : List String)
  | errorValidation (errors : List String)   -- the except-branch
deriving DecidableEq, Repr

/-- The `command_type` the validator reads off the parse result
(`command_data.get('command_type')`). -/
def WfParseResult.commandTypeField : WfParseResult → Option String
  | .matched c => some c.command_type
  | _ => Option.none

/-- The `parameters` the validator reads off the parse result
(`command_data.get('parameters', {})`). -/
def WfParseResult.parametersField : WfParseResult → List (String × PValue)
  | .matched c => c.parameters
  | _ => []

/-- Body of `validate_workflow_command` (inside the `try`): accumulate
`errors`/`warnings`/`suggestions` per command type, then on a still-valid
result replace `suggestions` with the advisory list. -/
def validate_workflow_command_core (command_data : WfParseResult) :
    Except String WfValidation := do
  if !command_data.is_workflow_command then
    return .passThrough
  let command_type := command_data.commandTypeField
  let parameters := command_data.parametersField
  let start : Bool × List String × List String × List String := (true, [], [], [])
  let vres ←
    if command_type = some "node-create" then do
      let node_type := pget parameters "type"
      let r1 :=
        if pvTruthy node_type ∧ !pvInStrList node_type (validValuesAt "node_types") then
          (false,
           ["Invalid node type '" ++ pvFormat node_type ++ "'. Valid types: " ++
             String.intercalate ", " (validValuesAt "node_types")], [], [])
        else start
      -- x, y = parameters.get('x'), parameters.get('y'); if x is not None and y is not None
      match pget parameters "x", pget parameters "y" with
      | .none, _ => pure r1
      | _, .none => pure r1
      | px, py => do
        let nx ← pvInt px
        let ny ← pvInt py
        if !(0 ≤ nx ∧ nx ≤ 2000 ∧ 0 ≤ ny ∧ ny ≤ 2000) then
          pure (r1.1, r1.2.1, r1.2.2.1 ++ ["Position outside typical canvas bounds"], r1.2.2.2)
        else
          pure r1
    else if command_type = some "flowline-create" then
      let flowline_type := pgetD parameters "type" "sequence"
      if !pvInStrList flowline_type (validValuesAt "flowline_types") then
        pure (false,
          ["Invalid flowline type '" ++ pvFormat flowline_type ++ "'. Valid types: " ++
            String.intercalate ", " (validValuesAt "flowline_types")], [], [])
      else pure start
    else if command_type = some "task-priority" then
      let priority := pget parameters "priority"
      if pvTruthy priority ∧ !pvInStrList priority (validValuesAt "task_priorities") then
        pure (false,
          ["Invalid priority '" ++ pvFormat priority ++ "'. Valid priorities: " ++
            String.intercalate ", " (validValuesAt "task_priorities")], [], [])
      else pure start
    else if command_type = some "matrix-move" then
      let quadrant := pget parameters "quadrant"
      if pvTruthy quadrant ∧ !pvInStrList quadrant (validValuesAt "matrix_quadrants") then
        pure (false,
          ["Invalid matrix quadrant '" ++ pvFormat quadrant ++ "'. Valid quadrants: " ++
            String.intercalate ", " (validValuesAt "matrix_quadrants")], [], [])
      else pure start
    else if command_type = some "workflow-clear" then
      if !pvTruthy (pget parameters "confirmed") then
        pure (true, [], ["Destructive operation. Add 'yes' or 'confirm' to proceed"],
          ["Use: /workflow-clear yes"])
      else pure start
    else
      pure start
  -- if validation_result['valid']: validation_result['suggestions'] = _generate_workflow_suggestions(...)
  if vres.1 then
    return .result vres.1 vres.2.1 vres.2.2.1 (generate_workflow_suggestions command_type parameters)
  else
    return .result vres.1 vres.2.1 vres.2.2.1 vres.2.2.2

/-- `validate_workflow_command` with its `except` boundary. -/
def validate_workflow_command (command_data : WfParseResult) : WfValidation :=
  match validate_workflow_command_core command_data with
  | .ok r => r
  | .error e => .errorValidation [e]

end WorkflowServer

/-! ## The chat command server -/

/-- Python `s.split(sep, 1)`: split at the first occurrence of `sep`,
`none` when `sep` does not occur. -/
def pySplitOnceAux (sep : List Char) : List Char → Option (List Char × List Char)
  | [] => Option.none
  | c :: t =>
    if sep.isPrefixOf (c :: t) then some ([], (c :: t).drop sep.length)
    else
      match pySplitOnceAux sep t with
      | some (pre, post) => some (c :: pre, post)
      | Option.none => Option.none

/-- Python `s.split(sep, 1)` as (first piece, optional second piece). -/
def pySplitOnce (s sep : String) : String × Option String :=
  match pySplitOnceAux sep.data s.data with
  | some (pre, post) => (String.mk pre, some (String.mk post))
  | Option.none => (s, Option.none)

/-- Python `s.strip('"\'')`: strip quote characters from both ends. -/
def pyStripQuotes (s : String) : String :=
  let p := fun c => c = '"' || c = '\''
  String.mk (((s.data.dropWhile p).reverse.dropWhile p).reverse)

/-- Python `value.split(',')`: split on every comma, keeping empty
pieces. -/
def pySplitCommaGo : List Char → List (List Char)
  | [] => [[]]
  | c :: t =>
    match pySplitCommaGo t with
    | r :: rs => if c = ',' then [] :: r :: rs else (c :: r) :: rs
    | [] => [[c]]

/-- Python `value.split(',')` for strings. -/
def pySplitComma (s : String) : List String :=
  (pySplitCommaGo s.data).map String.mk

/-- `re.search(kw + r'([class]+)', s)` for a literal `kw` and a single
greedy character class with nothing after it: scan positions left to
right; at the first position where the literal is followed by at least one
class character, the group is the maximal class run. -/
def pySearchKeyRun (kw : String) (good : Char → Bool) (s : String) : Option String :=
  go s.data
where
  go : List Char → Option String
    | [] => Option.none
    | c :: t =>
      if kw.data.isPrefixOf (c :: t) then
        let rest := (c :: t).drop kw.data.length
        let run := rest.takeWhile good
        if run.isEmpty then go t else some (String.mk run)
      else go t

namespace ChatServer

/-- `_parse_list_filters` of the chat server: four independent
`re.search` probes over the same filter string. -/
def parse_list_filters (filter_string : String) : FilterSet :=
  if filter_string = "" then {}
  else
    { tags := (pySearchKeyRun "tag:" (fun c => !isPySpace c) filter_string).map pySplitComma,
      opportunity_id := pySearchKeyRun "opp:" (fun c => !isPySpace c) filter_string,
      task_id := pySearchKeyRun "task:" (fun c => !isPySpace c) filter_string,
      limit := (pySearchKeyRun "limit:" Char.isDigit filter_string).map natOfDigits }

/-- `self.command_descriptions` of `ChatCommandServer.__init__` (the keys
double as the chat suggestion vocabulary; the HTML-escaped placeholders
are as in the source). -/
def command_descriptions : List (String × String) := [
  ("/note", "General note operations"),
  ("/note-create &lt;content&gt;", "Create a new note"),
  ("/note-search &lt;query&gt;", "Search notes by content"),
  ("/note-find &lt;query&gt;", "Find notes (alias for search)"),
  ("/note-tag &lt;note_id&gt; &lt;tags&gt;", "Add tags to a note"),
  ("/note-list [filters]", "List notes with optional filters"),
  ("/note-link &lt;note_id&gt; &lt;target_id&gt;", "Link note to opportunity/task"),
  ("/opp", "General opportunity operations"),
  ("/opp-create &lt;title&gt;", "Create a new opportunity"),
  ("/opp-list [filters]", "List opportunities"),
  ("/opp-link &lt;opp_id&gt; &lt;target_id&gt;", "Link opportunity to task/workflow"),
  ("/opp-search &lt;query&gt;", "Search opportunities"),
  ("/task-note &lt;task_id&gt; &lt;content&gt;", "Create note for specific task"),
  ("/task-link &lt;task_id&gt; &lt;note_id&gt;", "Link task to note"),
  ("/analyze &lt;text&gt;", "Analyze text for potential associations"),
  ("/suggest [context]", "Get suggestions for current context"),
  ("/associate &lt;id1&gt; &lt;id2&gt;", "Create association between items"),
  ("/sql &lt;query&gt;", "Execute PostgreSQL query directly"),
  ("/db-query &lt;query&gt;", "Execute PostgreSQL query (alias for /sql)"),
  ("/help [command]", "Show help information"),
  ("/commands", "List all available commands"),
  ("/status", "Show system status"),
  ("/node-create &lt;type&gt; [name] [x,y]", "Create a new node (process, decision, terminal)"),
  ("/node-delete &lt;identifier&gt;", "Delete a node by name or ID"),
  ("/node-rename &lt;old&gt; &lt;new&gt;", "Rename a node"),
  ("/node-move &lt;node&gt; &lt;x,y&gt;", "Move a node to position"),
  ("/node-type &lt;node&gt; &lt;type&gt;", "Change node type"),
  ("/task-create &lt;name&gt; [node] [priority]", "Create a new task"),
  ("/task-delete &lt;identifier&gt;", "Delete a task"),
  ("/task-move &lt;task&gt; &lt;target-node&gt;", "Move task to node"),
  ("/task-advance &lt;task&gt; &lt;target-node&gt;", "Advance task to node"),
  ("/task-priority &lt;task&gt; &lt;priority&gt;", "Set task priority (low, normal, high, urgent)"),
  ("/connect &lt;source&gt; &lt;target&gt; [type]", "Create flowline between nodes"),
  ("/disconnect &lt;source&gt; &lt;target&gt;", "Remove flowline"),
  ("/flowline-type &lt;source&gt; &lt;target&gt; &lt;type&gt;", "Change flowline type"),
  ("/disconnect all", "Remove all flowlines"),
  ("/tag-create &lt;name&gt; [category] [props]", "Create a new tag"),
  ("/tag-add &lt;tag&gt; &lt;element&gt;", "Add tag to element"),
  ("/tag-remove &lt;tag&gt; &lt;element&gt;", "Remove tag from element"),
  ("/tag-list [filter]", "List tags"),
  ("/workflow-save [filename]", "Save current workflow"),
  ("/workflow-load &lt;filename&gt;", "Load workflow file"),
  ("/workflow-export [format]", "Export workflow (json, png, svg, pdf)"),
  ("/workflow-clear [confirm]", "Clear/reset workflow"),
  ("/workflow-status", "Show workflow statistics"),
  ("/workflow-stats", "Show detailed workflow stats"),
  ("/matrix-enter", "Enter Eisenhower Matrix mode"),
  ("/matrix-exit", "Exit Eisenhower Matrix mode"),
  ("/matrix-move &lt;task&gt; &lt;quadrant&gt;", "Move task in matrix"),
  ("/matrix-show [quadrant]", "Show matrix quadrant"),
  ("/view-zoom &lt;level&gt;", "Zoom view (in, out, fit, reset)"),
  ("/view-center [node]", "Center view on node"),
  ("/view-focus &lt;element&gt;", "Focus on element"),
  ("/select &lt;element&gt;", "Select element"),
  ("/select-all [type]", "Select all elements of type"),
  ("/select-none", "Clear selection"),
  ("/goto &lt;node&gt;", "Navigate to node"),
  ("/find &lt;name&gt;", "Find element by name")]

/-- `_suggest_similar_command`: the same scoring loop over the chat
vocabulary. -/
def suggest_similar_command (unknown_command : String) : Option String :=
  let unknown := pyLstripSlash (pyLower unknown_command)
  suggestGo unknown (command_descriptions.map Prod.fst) Option.none (0, 1)

/-- `_parse_command_match`: per-command extraction for the chat grammar.
Commands without a branch in the source (`opp`, `opp-link`, `task-link`,
`suggest`, `associate`, `sql`, `db-query`) keep empty parameters and no
`action` key.  The mandatory groups indexed directly in the source
(`groups[1].split()`) are present for every input the matched pattern
accepts. -/
def parse_command_match (command_name : String) (gs : List (Option String)) :
    List (String × PValue) × Option String :=
  if command_name = "note" ∨ command_name = "note-create" then
    ([("content", .str (pyOrDefault (gidx gs 0) ""))], some "create_note")
  else if command_name = "note-search" ∨ command_name = "note-find" ∨
      command_name = "opp-search" then
    ([("query", .str (pyOrDefault (gidx gs 0) ""))],
     some (if pyContainsSub command_name "note" then "search_notes"
           else "search_opportunities"))
  else if command_name = "note-tag" then
    ([("note_id", pvRaw (gidx gs 0)),
      ("tags", .strList (pySplitWs ((gidx gs 1).getD "")))], some "add_tags_to_note")
  else if command_name = "note-list" then
    ([("filters", .filters (parse_list_filters (pyOrDefault (gidx gs 0) "")))],
     some "list_notes")
  else if command_name = "note-link" then
    ([("note_id", pvRaw (gidx gs 0)), ("target_id", pvRaw (gidx gs 1))], some "link_note")
  else if command_name = "opp-create" then
    let content := pyOrDefault (gidx gs 0) ""
    let parts := pySplitOnce content " - "
    ([("title", .str (pyStripQuotes parts.1)),
      ("description", .str (parts.2.getD ""))], some "create_opportunity")
  else if command_name = "opp-list" then
    ([("filters", .filters (parse_list_filters (pyOrDefault (gidx gs 0) "")))],
     some "list_opportunities")
  else if command_name = "task-note" then
    ([("task_id", pvRaw (gidx gs 0)), ("content", pvRaw (gidx gs 1))],
     some "create_task_note")
  else if command_name = "analyze" then
    ([("text", .str (pyOrDefault (gidx gs 0) ""))], some "analyze_text")
  else if command_name = "help" then
    ([("topic", pvOrNone (gidx gs 0))], some "show_help")
  else if command_name = "commands" then
    ([], some "list_commands")
  else if command_name = "status" then
    ([], some "show_status")
  else
    ([], Option.none)

/-- A successfully matched chat command. -/
structure ChatCommand where
  command_type : String
  parameters : List (String × PValue)
  action : Option String
  raw_params : List (Option String)
  original_input : String
deriving DecidableEq, Repr

/-- The distinct return shapes of `parse_chat_input`. -/
inductive ChatParseResult where
  | text (content : String)
  | matched (c : ChatCommand)
  | unknownCommand (command : String) (error : String) (suggestion : Option String)
  | errorResult (error : String)
deriving DecidableEq, Repr

/-- The `is_command` field of each return dict. -/
def ChatParseResult.is_command : ChatParseResult → Bool
  | .text _ => false
  | .matched _ => true
  | .unknownCommand _ _ _ => true
  | .errorResult _ => false

/-- The `type` field of each return dict (a matched command's dict has no
`type` key). -/
def ChatParseResult.rtype : ChatParseResult → Option String
  | .text _ => some "text"
  | .matched _ => Option.none
  | .unknownCommand _ _ _ => some "unknown_command"
  | .errorResult _ => some "error"

/-- The `should_process_with_llm` field of each return dict. -/
def ChatParseResult.should_process_with_llm : ChatParseResult → Option Bool
  | .text _ => some true
  | .matched _ => Option.none
  | .unknownCommand _ _ _ => some false
  | .errorResult _ => some true

/-- Body of `parse_chat_input` (everything inside the `try`). -/
def parse_chat_input_core (input_text : String) : Except String ChatParseResult := do
  let t := pyStrip input_text
  if !pyStartsWithSlash t then
    return .text t
  match findRuleMatch command_patterns t.data with
  | some (name, gs) =>
    let pa := parse_command_match name gs
    return .matched ⟨name, pa.1, pa.2, gs, t⟩
  | Option.none => do
    let tok ← pyIdx (pySplitWs t) 0
    return .unknownCommand tok ("Unknown command: " ++ tok) (suggest_similar_command tok)

/-- `parse_chat_input` with its `except` boundary. -/
def parse_chat_input (input_text : String) : ChatParseResult :=
  match parse_chat_input_core input_text with
  | .ok r => r
  | .error e => .errorResult e

/-- An extracted entity as produced by `_extract_entities`. -/
structure Entity where
  text : String
  etype : String
  confidence : ℚ
deriving DecidableEq, Repr

/-- The action keywords of `_assess_note_worthiness`. -/
def action_words : List String :=
  ["todo", "need to", "should", "must", "action", "task"]

/-- The decision keywords of `_assess_note_worthiness`. -/
def decision_words : List String :=
  ["decided", "agreed", "concluded", "result"]

/-- The note-worthiness record `{score, worthy, reasons}`. -/
structure NoteWorthiness where
  score : ℚ
  worthy : Bool
  reasons : List String
deriving DecidableEq, Repr

/-- `_assess_note_worthiness`: the additive heuristic over the input text
and the already-extracted `entities` and `topics` of the context.  The
Python score is a float built from the literals 0.3, 0.4, 0.2, 0.3, 0.3
and compared against 0.5 and capped with `min(score, 1.0)`; for every
subset of these increments the float comparisons agree with the exact
rational ones (in particular float `0.3 + 0.2 == 0.5` exactly), so the
score is embedded in `ℚ`. -/
def assess_note_worthiness (text : String) (entities : List Entity)
    (topics : List String) : NoteWorthiness :=
  let lower := pyLower text
  let c1 := text.length > 50
  let c2 := action_words.any (fun w => pyContainsSub lower w)
  let c3 := !entities.isEmpty
  let c4 := topics.contains "deadline"
  let c5 := decision_words.any (fun w => pyContainsSub lower w)
  let score : ℚ :=
    (if c1 then 3 / 10 else 0) + (if c2 then 4 / 10 else 0) +
    (if c3 then 2 / 10 else 0) + (if c4 then 3 / 10 else 0) +
    (if c5 then 3 / 10 else 0)
  { score := min score 1,
    worthy := decide (score > 1 / 2),
    reasons :=
      (if c1 then ["substantial_content"] else []) ++
      (if c2 then ["actionable_content"] else []) ++
      (if c3 then ["contains_entities"] else []) ++
      (if c4 then ["time_sensitive"] else []) ++
      (if c5 then ["contains_decisions"] else []) }

end ChatServer

/-! ## Derived definitions used by the verification -/

/-- All rules of a registry matching an input, in registry order — the
`matches` list collected by the repository's own diagnostic script
(`debug-command-parsing.py`, `test_command_parsing`), here applied to the
server's registry. -/
def matchingRules (rules : List Rule) (s : List Char) : List String :=
  (rules.filter (fun r => (reFullMatch r.pat r.ngroups s).isSome)).map Rule.name

/-- A regex without capture groups. -/
def groupFree : RE → Bool
  | .eps => true
  | .cls _ => true
  | .star _ => true
  | .plus _ => true
  | .opt r => groupFree r
  | .cat r t => groupFree r && groupFree t
  | .alt r t => groupFree r && groupFree t
  | .grp _ _ => false

/-- The quadrant sub-pattern `(\w+[-_]\w+)` body. -/
def quadBody : RE := rcat [.plus .word, .cls .dashU, .plus .word]

/-- The matrix-move pattern of the registry, named for the shape lemmas. -/
def matrixMoveRE : RE :=
  rcat [rlit "/matrix", rsep, rlit "move", rws, .grp 0 (.plus .dot), rws,
    .grp 1 quadBody]

/-! ## Supporting lemmas -/

/-- The similarity score is the quotient of its numerator and denominator. -/
theorem similarityScore_eq (u c : String) :
    similarityScore u c = (scoreNum u c : ℚ) / (scoreDen u c : ℚ) := by
  unfold similarityScore scoreNum scoreDen
  rfl

/-- Cross-multiplication bound for the similarity score. -/
theorem similarityScore_le_of_cross (u c : String)
    (h : 11 * scoreNum u c ≤ 6 * scoreDen u c) (hd : 0 < scoreDen u c) :
    similarityScore u c ≤ 6 / 11 := by
  have hd' : (0 : ℚ) < (scoreDen u c : ℚ) := by exact_mod_cast hd
  rw [similarityScore_eq, div_le_div_iff₀ hd' (by norm_num : (0 : ℚ) < 11)]
  exact_mod_cast Nat.mul_comm 11 (scoreNum u c) ▸ h

/-- Head of a scan started on a nonempty current token. -/
theorem pySplitWsGo_head (cs : List Char) : ∀ cur : List Char, cur ≠ [] →
    pyIdx (pySplitWsGo cur cs) 0 =
      .ok (String.mk (cur.reverse ++ cs.takeWhile (fun c => !isPySpace c))) := by
  induction cs with
  | nil =>
    intro cur hcur
    rw [pySplitWsGo]
    simp [List.isEmpty_iff, hcur, pyIdx]
  | cons c t ih =>
    intro cur hcur
    rw [pySplitWsGo]
    rcases hsp : isPySpace c with _ | _
    · simp only [Bool.false_eq_true, if_false]
      rw [ih (c :: cur) (by simp)]
      simp [List.takeWhile, hsp]
    · simp only [if_true, List.isEmpty_iff, hcur, if_false, pyIdx, List.get?]
      simp [List.takeWhile, hsp]

/-- `input.split()[0]` succeeds on any string starting with `/`. -/
theorem pySplitWs_head_of_slash (t : String) (h : pyStartsWithSlash t = true) :
    pyIdx (pySplitWs t) 0 = .ok (pyFirstTok t) := by
  rcases ht : t.data with _ | ⟨c, cs⟩
  · rw [pyStartsWithSlash, ht] at h; exact absurd h (by simp)
  · have hc : c = '/' := by rw [pyStartsWithSlash, ht] at h; simpa using h
    have hns : isPySpace c = false := by rw [hc]; decide
    rw [pySplitWs, ht, pySplitWsGo, hns]
    simp only [Bool.false_eq_true, if_false]
    rw [pySplitWsGo_head cs [c] (by simp)]
    rw [pyFirstTok, ht]
    simp [List.takeWhile, hns]

/-- The first-match loop returns the head of the full match list. -/
theorem findRuleMatch_head : ∀ (rules : List Rule) (s : List Char)
    (name : String) (gs : List (Option String)),
    findRuleMatch rules s = some (name, gs) →
    ∃ rest, matchingRules rules s = name :: rest := by
  intro rules
  induction rules with
  | nil => intro s name gs h; simp [findRuleMatch] at h
  | cons r rs ih =>
    intro s name gs h
    rw [findRuleMatch] at h
    rcases hm : reFullMatch r.pat r.ngroups s with _ | gs'
    · rw [hm] at h
      obtain ⟨rest, hrest⟩ := ih s name gs h
      refine ⟨rest, ?_⟩
      rw [matchingRules, List.filter]
      simp only [hm, Option.isSome_none]
      exact hrest
    · rw [hm] at h
      refine ⟨(rs.filter (fun r => (reFullMatch r.pat r.ngroups s).isSome)).map Rule.name, ?_⟩
      have hname : name = r.name := by cases h; rfl
      rw [matchingRules, List.filter]
      simp only [hm, Option.isSome_some]
      rw [hname, List.map_cons]

/-- The first-match loop fails exactly when no rule matches. -/
theorem findRuleMatch_none_iff (rules : List Rule) (s : List Char) :
    findRuleMatch rules s = Option.none ↔ matchingRules rules s = [] := by
  induction rules with
  | nil => simp [findRuleMatch, matchingRules]
  | cons r rs ih =>
    rw [findRuleMatch]
    rcases hm : reFullMatch r.pat r.ngroups s with _ | gs'
    · have hmr : matchingRules (r :: rs) s = matchingRules rs s := by
        rw [matchingRules, matchingRules, List.filter]
        simp [hm]
      rw [hmr]
      simpa [hm] using ih
    · constructor
      · intro h; exact absurd h (by simp)
      · intro h
        rw [matchingRules, List.filter] at h
        simp [hm] at h

theorem mem_joinList {α : Type} {a : α} {ls : List (List α)} :
    a ∈ joinList ls ↔ ∃ l ∈ ls, a ∈ l := by
  induction ls with
  | nil => simp [joinList]
  | cons l ls ih => simp [joinList, ih]

theorem dropsDesc_mem {s r : List Char} : ∀ {m : Nat},
    r ∈ dropsDesc s m → ∃ j ≤ m, r = s.drop j := by
  intro m
  induction m with
  | zero =>
    intro h
    rw [dropsDesc] at h
    simp at h
    exact ⟨0, Nat.le_refl 0, by simpa using h⟩
  | succ m ih =>
    intro h
    rw [dropsDesc] at h
    rcases List.mem_cons.mp h with h | h
    · exact ⟨m + 1, Nat.le_refl _, h⟩
    · obtain ⟨j, hj, hr⟩ := ih h
      exact ⟨j, Nat.le_succ_of_le hj, hr⟩

theorem takeWhile_take_pred {p : Char → Bool} : ∀ (s : List Char) (j : Nat),
    j ≤ (s.takeWhile p).length → ∀ a ∈ s.take j, p a = true := by
  intro s
  induction s with
  | nil => intro j _ a ha; simp at ha
  | cons c t ih =>
    intro j hj a ha
    rcases j with _ | j
    · simp at ha
    · rw [List.takeWhile] at hj
      rcases hp : p c with _ | _
      · rw [hp] at hj; simp at hj
      · rw [hp] at hj
        simp only [List.length_cons, Nat.succ_le_succ_iff] at hj
        rw [List.take] at ha
        rcases List.mem_cons.mp ha with h | h
        · rw [h]; exact hp
        · exact ih j hj a h

theorem reRun_eps_mem {s : List Char} {k : Caps} {p : List Char × Caps}
    (h : p ∈ reRun .eps s k) : p = (s, k) := by
  rw [reRun] at h; simpa using h

theorem reRun_cls_mem {c : CC} {s : List Char} {k : Caps} {p : List Char × Caps}
    (h : p ∈ reRun (.cls c) s k) :
    ∃ a t, s = a :: t ∧ ccEval c a = true ∧ p = (t, k) := by
  rcases s with _ | ⟨a, t⟩
  · simp [reRun] at h
  all_goals simp only [reRun] at h
  · rcases he : ccEval c a with _ | _
    · rw [he] at h; simp at h
    · rw [he] at h; simp at h
      exact ⟨a, t, rfl, he, by simp [h]⟩

theorem reRun_star_mem {c : CC} {s : List Char} {k : Caps} {p : List Char × Caps}
    (h : p ∈ reRun (.star c) s k) :
    p.2 = k ∧ ∃ u, s = u ++ p.1 ∧ (∀ a ∈ u, ccEval c a = true) := by
  rw [reRun] at h
  obtain ⟨r, hr, hp⟩ := List.mem_map.mp h
  obtain ⟨j, hj, hrj⟩ := dropsDesc_mem hr
  subst hrj
  rw [← hp]
  refine ⟨rfl, s.take j, by simp, ?_⟩
  exact takeWhile_take_pred s j hj

theorem reRun_plus_mem {c : CC} {s : List Char} {k : Caps} {p : List Char × Caps}
    (h : p ∈ reRun (.plus c) s k) :
    p.2 = k ∧ ∃ u, s = u ++ p.1 ∧ u ≠ [] ∧ (∀ a ∈ u, ccEval c a = true) := by
  rcases s with _ | ⟨a, t⟩
  · simp [reRun] at h
  all_goals simp only [reRun] at h
  · rcases he : ccEval c a with _ | _
    · rw [he] at h; simp at h
    · rw [he] at h
      simp only [if_true] at h
      obtain ⟨r, hr, hp⟩ := List.mem_map.mp h
      obtain ⟨j, hj, hrj⟩ := dropsDesc_mem hr
      subst hrj
      rw [← hp]
      refine ⟨rfl, a :: t.take j, by simp, by simp, ?_⟩
      intro x hx
      rcases List.mem_cons.mp hx with hxx | hxx
      · rw [hxx]; exact he
      · exact takeWhile_take_pred t j hj x hxx

theorem reRun_opt_mem {r : RE} {s : List Char} {k : Caps} {p : List Char × Caps}
    (h : p ∈ reRun (.opt r) s k) : p ∈ reRun r s k ∨ p = (s, k) := by
  rw [reRun] at h
  rcases List.mem_append.mp h with h | h
  · exact Or.inl h
  · exact Or.inr (by simpa using h)

theorem reRun_alt_mem {r t : RE} {s : List Char} {k : Caps} {p : List Char × Caps}
    (h : p ∈ reRun (.alt r t) s k) : p ∈ reRun r s k ∨ p ∈ reRun t s k := by
  rw [reRun] at h
  exact List.mem_append.mp h

theorem reRun_cat_mem {r t : RE} {s : List Char} {k : Caps} {p : List Char × Caps}
    (h : p ∈ reRun (.cat r t) s k) :
    ∃ q, q ∈ reRun r s k ∧ p ∈ reRun t q.1 q.2 := by
  rw [reRun] at h
  obtain ⟨l, hl, hp⟩ := mem_joinList.mp h
  obtain ⟨q, hq, hlq⟩ := List.mem_map.mp hl
  exact ⟨q, hq, by rw [← hlq] at hp; exact hp⟩

theorem reRun_grp_mem {i : Nat} {r : RE} {s : List Char} {k : Caps}
    {p : List Char × Caps} (h : p ∈ reRun (.grp i r) s k) :
    ∃ q ∈ reRun r s k, p = (q.1, (i, s.take (s.length - q.1.length)) :: q.2) := by
  rw [reRun] at h
  obtain ⟨q, hq, hp⟩ := List.mem_map.mp h
  exact ⟨q, hq, hp.symm⟩

theorem reRun_suffix {r : RE} : ∀ {s : List Char} {k : Caps} {p : List Char × Caps},
    p ∈ reRun r s k → ∃ u, s = u ++ p.1 := by
  induction r with
  | eps => intro s k p h; exact ⟨[], by simp [reRun_eps_mem h]⟩
  | cls c =>
    intro s k p h
    obtain ⟨a, t, hs, _, hp⟩ := reRun_cls_mem h
    exact ⟨[a], by simp [hs, hp]⟩
  | star c =>
    intro s k p h
    obtain ⟨-, u, hu, -⟩ := reRun_star_mem h
    exact ⟨u, hu⟩
  | plus c =>
    intro s k p h
    obtain ⟨-, u, hu, -⟩ := reRun_plus_mem h
    exact ⟨u, hu⟩
  | opt r ih =>
    intro s k p h
    rcases reRun_opt_mem h with h | h
    · exact ih h
    · exact ⟨[], by simp [h]⟩
  | cat r t ihr iht =>
    intro s k p h
    obtain ⟨q, hq, hp⟩ := reRun_cat_mem h
    obtain ⟨u1, hu1⟩ := ihr hq
    obtain ⟨u2, hu2⟩ := iht hp
    exact ⟨u1 ++ u2, by rw [hu1, hu2, List.append_assoc]⟩
  | alt r t ihr iht =>
    intro s k p h
    rcases reRun_alt_mem h with h | h
    · exact ihr h
    · exact iht h
  | grp i r ih =>
    intro s k p h
    obtain ⟨q, hq, hp⟩ := reRun_grp_mem h
    obtain ⟨u, hu⟩ := ih hq
    exact ⟨u, by rw [hp]; exact hu⟩

theorem take_of_append (u v : List Char) :
    (u ++ v).take ((u ++ v).length - v.length) = u := by
  have : (u ++ v).length - v.length = u.length := by simp
  rw [this, List.take_left]

theorem reRun_groupFree_caps {r : RE} : ∀ {s : List Char} {k : Caps}
    {p : List Char × Caps}, groupFree r = true → p ∈ reRun r s k → p.2 = k := by
  induction r with
  | eps => intro s k p _ h; rw [reRun_eps_mem h]
  | cls c =>
    intro s k p _ h
    obtain ⟨a, t, _, _, hp⟩ := reRun_cls_mem h
    rw [hp]
  | star c => intro s k p _ h; exact (reRun_star_mem h).1
  | plus c => intro s k p _ h; exact (reRun_plus_mem h).1
  | opt r ih =>
    intro s k p hg h
    rcases reRun_opt_mem h with h | h
    · exact ih (by simpa [groupFree] using hg) h
    · rw [h]
  | cat r t ihr iht =>
    intro s k p hg h
    rw [groupFree, Bool.and_eq_true] at hg
    obtain ⟨q, hq, hp⟩ := reRun_cat_mem h
    rw [iht hg.2 hp, ihr hg.1 hq]
  | alt r t ihr iht =>
    intro s k p hg h
    rw [groupFree, Bool.and_eq_true] at hg
    rcases reRun_alt_mem h with h | h
    · exact ihr hg.1 h
    · exact iht hg.2 h
  | grp i r ih => intro s k p hg h; simp [groupFree] at hg

/-- What the quadrant body consumes: a nonempty word run, one `-` or `_`,
and a nonempty word run. -/
theorem quadBody_consumed {s : List Char} {k : Caps} {p : List Char × Caps}
    (h : p ∈ reRun quadBody s k) :
    p.2 = k ∧ ∃ w1 d w2, s = (w1 ++ d :: w2) ++ p.1 ∧ w1 ≠ [] ∧ w2 ≠ [] ∧
      (∀ a ∈ w1, isWordChar a = true) ∧ (∀ a ∈ w2, isWordChar a = true) ∧
      (d = '-' ∨ d = '_') := by
  have h' : p ∈ reRun (.cat (.plus .word) (.cat (.cls .dashU) (.plus .word))) s k := h
  obtain ⟨q1, hq1, hrest⟩ := reRun_cat_mem h'
  obtain ⟨q2, hq2, hp2⟩ := reRun_cat_mem hrest
  obtain ⟨hk1, w1, hw1, hw1ne, hw1all⟩ := reRun_plus_mem hq1
  obtain ⟨d, t2, hdt, hd, hq2eq⟩ := reRun_cls_mem hq2
  obtain ⟨hk2, w2, hw2, hw2ne, hw2all⟩ := reRun_plus_mem hp2
  rw [hq2eq] at hw2 hk2
  simp only at hw2 hk2
  constructor
  · rw [hk2, hk1]
  · refine ⟨w1, d, w2, ?_, hw1ne, hw2ne, ?_, ?_, ?_⟩
    · rw [hw1, hdt, hw2]
      simp
    · intro a ha; exact hw1all a ha
    · intro a ha; exact hw2all a ha
    · rw [ccEval] at hd
      simp only [Bool.or_eq_true, decide_eq_true_eq] at hd
      exact hd

theorem matrixMove_caps {s : List Char} {p : List Char × Caps}
    (h : p ∈ reRun matrixMoveRE s []) :
    ∃ t0 q, p.2 = [(1, q), (0, t0)] ∧
      ∃ w1 d w2, q = w1 ++ d :: w2 ∧ w1 ≠ [] ∧ w2 ≠ [] ∧
        (∀ a ∈ w1, isWordChar a = true) ∧ (∀ a ∈ w2, isWordChar a = true) ∧
        (d = '-' ∨ d = '_') := by
  have h1 : p ∈ reRun (.cat (rlit "/matrix")
      (rcat [rsep, rlit "move", rws, .grp 0 (.plus .dot), rws, .grp 1 quadBody])) s [] := h
  obtain ⟨q1, hq1, h1'⟩ := reRun_cat_mem h1
  have hk1 : q1.2 = [] := reRun_groupFree_caps (by decide) hq1
  have h2 : p ∈ reRun (.cat rsep
      (rcat [rlit "move", rws, .grp 0 (.plus .dot), rws, .grp 1 quadBody])) q1.1 q1.2 := h1'
  obtain ⟨q2, hq2, h2'⟩ := reRun_cat_mem h2
  have hk2 : q2.2 = q1.2 := reRun_groupFree_caps (by decide) hq2
  have h3 : p ∈ reRun (.cat (rlit "move")
      (rcat [rws, .grp 0 (.plus .dot), rws, .grp 1 quadBody])) q2.1 q2.2 := h2'
  obtain ⟨q3, hq3, h3'⟩ := reRun_cat_mem h3
  have hk3 : q3.2 = q2.2 := reRun_groupFree_caps (by decide) hq3
  have h4 : p ∈ reRun (.cat rws
      (rcat [.grp 0 (.plus .dot), rws, .grp 1 quadBody])) q3.1 q3.2 := h3'
  obtain ⟨q4, hq4, h4'⟩ := reRun_cat_mem h4
  have hk4 : q4.2 = q3.2 := reRun_groupFree_caps (by decide) hq4
  have h5 : p ∈ reRun (.cat (.grp 0 (.plus .dot))
      (rcat [rws, .grp 1 quadBody])) q4.1 q4.2 := h4'
  obtain ⟨q5, hq5, h5'⟩ := reRun_cat_mem h5
  obtain ⟨q5', hq5', hq5eq⟩ := reRun_grp_mem hq5
  have hk5' : q5'.2 = q4.2 := reRun_groupFree_caps (by decide) hq5'
  have hk5 : q5.2 = (0, q4.1.take (q4.1.length - q5'.1.length)) :: q4.2 := by
    rw [hq5eq, hk5']
  have h6 : p ∈ reRun (.cat rws (.grp 1 quadBody)) q5.1 q5.2 := h5'
  obtain ⟨q6, hq6, h6'⟩ := reRun_cat_mem h6
  have hk6 : q6.2 = q5.2 := reRun_groupFree_caps (by decide) hq6
  obtain ⟨q7, hq7, hpeq⟩ := reRun_grp_mem h6'
  have hk7 : q7.2 = q6.2 := reRun_groupFree_caps (by decide) hq7
  obtain ⟨hkq, w1, d, w2, hsplit, hw1, hw2, ha1, ha2, hd⟩ := quadBody_consumed hq7
  have hcons : q6.1.take (q6.1.length - q7.1.length) = w1 ++ d :: w2 := by
    rw [hsplit]
    exact take_of_append (w1 ++ d :: w2) q7.1
  refine ⟨q4.1.take (q4.1.length - q5'.1.length), w1 ++ d :: w2, ?_,
    w1, d, w2, rfl, hw1, hw2, ha1, ha2, hd⟩
  rw [hpeq]
  simp only
  rw [hcons, hk7, hk6, hk5, hk4, hk3, hk2, hk1]

theorem findRuleMatch_rule : ∀ (rules : List Rule) (s : List Char)
    (name : String) (gs : List (Option String)),
    findRuleMatch rules s = some (name, gs) →
    ∃ r ∈ rules, r.name = name ∧ reFullMatch r.pat r.ngroups s = some gs := by
  intro rules
  induction rules with
  | nil => intro s name gs h; simp [findRuleMatch] at h
  | cons r rs ih =>
    intro s name gs h
    rw [findRuleMatch] at h
    rcases hm : reFullMatch r.pat r.ngroups s with _ | gs'
    · rw [hm] at h
      obtain ⟨r', hr', hname, hfm⟩ := ih s name gs h
      exact ⟨r', List.mem_cons_of_mem _ hr', hname, hfm⟩
    · rw [hm] at h
      refine ⟨r, List.mem_cons_self _ _, ?_, ?_⟩
      · cases h; rfl
      · cases h; exact hm

theorem reFullMatch_outcome {r : RE} {n : Nat} {s : List Char}
    {gs : List (Option String)} (h : reFullMatch r n s = some gs) :
    ∃ p ∈ reRun r s [], p.1 = [] ∧
      gs = (List.range n).map (fun i => (p.2.lookup i).map String.mk) := by
  rw [reFullMatch] at h
  rcases hf : (reRun r s []).find? (fun p => p.1.isEmpty) with _ | p
  · rw [hf] at h; simp at h
  · rw [hf] at h
    have hmem := List.mem_of_find?_eq_some hf
    have hpred := List.find?_some hf
    refine ⟨p, hmem, by simpa using hpred, ?_⟩
    rcases p with ⟨rest, caps⟩
    simpa using h.symm

theorem quadShape_ne_hyphenated (q : String)
    (hsh : ∃ w1 d w2, q.data = w1 ++ d :: w2 ∧ w1 ≠ [] ∧ w2 ≠ [] ∧
      (∀ a ∈ w1, isWordChar a = true) ∧ (∀ a ∈ w2, isWordChar a = true) ∧
      (d = '-' ∨ d = '_')) :
    q ≠ "not-urgent-important" ∧ q ≠ "not-urgent-not-important" := by
  obtain ⟨w1, d, w2, hq, -, -, ha1, ha2, -⟩ := hsh
  have hca : w1.count '-' = 0 :=
    List.count_eq_zero.mpr (fun hmem => absurd (ha1 '-' hmem) (by decide))
  have hcb : w2.count '-' = 0 :=
    List.count_eq_zero.mpr (fun hmem => absurd (ha2 '-' hmem) (by decide))
  have hcount : q.data.count '-' ≤ 1 := by
    rw [hq, List.count_append, List.count_cons, hca, hcb]
    split_ifs <;> omega
  constructor <;> intro he <;> rw [he] at hcount <;> revert hcount <;> decide

theorem parse_workflow_matched_inv (input : String) (c : WorkflowServer.WfCommand)
    (hp : WorkflowServer.parse_workflow_command input = .matched c) :
    ∃ name gs,
      findRuleMatch WorkflowServer.command_patterns (pyStrip input).data =
        some (name, gs) ∧
      c = ⟨name, (WorkflowServer.parse_workflow_match name gs).1,
        (WorkflowServer.parse_workflow_match name gs).2, gs, pyStrip input⟩ := by
  rw [WorkflowServer.parse_workflow_command] at hp
  rcases hcore : WorkflowServer.parse_workflow_command_core input with e | r
  · rw [hcore] at hp; cases hp
  · rw [hcore] at hp
    rw [WorkflowServer.parse_workflow_command_core] at hcore
    rcases hslash : pyStartsWithSlash (pyStrip input) with _ | _
    · simp only [hslash, Bool.not_false, if_true, pure, Except.pure, bind, Except.bind,
        Except.ok.injEq] at hcore
      rw [← hcore] at hp; cases hp
    · simp only [hslash, Bool.not_true, Bool.false_eq_true, if_false] at hcore
      rcases hfind : findRuleMatch WorkflowServer.command_patterns (pyStrip input).data
        with _ | ⟨name, gs⟩
      · rw [hfind] at hcore
        rw [pySplitWs_head_of_slash _ hslash] at hcore
        rcases hkw : WorkflowServer.workflow_keywords.any
            (fun kw => pyContainsSub (pyLower (pyStrip input)) kw) with _ | _
        · simp only [hkw, Bool.false_eq_true, if_false, pure, Except.pure, bind,
            Except.bind, Except.ok.injEq] at hcore
          rw [← hcore] at hp; cases hp
        · simp only [hkw, if_true, bind, Except.bind, pure, Except.pure,
            Except.ok.injEq] at hcore
          rw [← hcore] at hp; cases hp
      · rw [hfind] at hcore
        simp only [bind, Except.bind, pure, Except.pure, Except.ok.injEq] at hcore
        rw [← hcore] at hp
        cases hp
        exact ⟨name, gs, hfind ▸ rfl, rfl⟩

/-! ## Claims -/

/-- C5: Absent optional captures are filled with the documented defaults:
`/node-create process` yields `type = "process"`, `name = None` and no
coordinates; a `connect` command without a trailing type yields
`type = "sequence"`; a `task-create` command without a priority yields
`priority = "normal"`. -/
theorem C5_absent_captures_get_defaults :
    WorkflowServer.parse_workflow_command "/node-create process" =
      .matched ⟨"node-create",
        [("type", .str "process"), ("name", .none), ("x", .none), ("y", .none)],
        "create_node", [some "process", Option.none, Option.none, Option.none, Option.none],
        "/node-create process"⟩ ∧
    WorkflowServer.parse_workflow_command "/connect \"A\" \"B\"" =
      .matched ⟨"flowline-create",
        [("source", .str "A"), ("target", .str "B"), ("type", .str "sequence")],
        "create_flowline", [some "A", some "B", Option.none],
        "/connect \"A\" \"B\""⟩ ∧
    WorkflowServer.parse_workflow_command "/task-create \"T\"" =
      .matched ⟨"task-create",
        [("name", .str "T"), ("node", .none), ("priority", .str "normal")],
        "create_task", [some "T", Option.none, Option.none],
        "/task-create \"T\""⟩ := by
  refine ⟨by decide, by decide, by decide⟩

/-- C4: parsing `/workflow-clear` yields `confirmed = false`, and
validating it returns `valid = true` with the destructive-operation
warning — but with an empty `suggestions` list: the appended
`"Use: /workflow-clear yes"` is overwritten by the advisory pass
(`_generate_workflow_suggestions` has no workflow-clear branch), so the
suggested corrected invocation never reaches the caller. -/
theorem C4_clear_warning_but_suggestion_overwritten :
    WorkflowServer.parse_workflow_command "/workflow-clear" =
      .matched ⟨"workflow-clear", [("confirmed", .bool false)], "clear_workflow",
        [Option.none], "/workflow-clear"⟩ ∧
    WorkflowServer.validate_workflow_command
        (WorkflowServer.parse_workflow_command "/workflow-clear") =
      .result true []
        ["Destructive operation. Add 'yes' or 'confirm' to proceed"] [] := by
  refine ⟨by decide, by decide⟩

/-- C6: the filter mini-language: `tag` comma-splits, `opp`/`task` take a
single token, `limit` parses a non-negative integer, several keys may
co-occur, an unrecognized key contributes nothing, and for a repeated key
the first occurrence wins. -/
theorem C6_filter_expression_parsing :
    ChatServer.parse_list_filters "tag:a,b limit:5" =
      { tags := some ["a", "b"], opportunity_id := Option.none,
        task_id := Option.none, limit := some 5 } ∧
    ChatServer.parse_list_filters "foo:bar" =
      { tags := Option.none, opportunity_id := Option.none,
        task_id := Option.none, limit := Option.none } ∧
    ChatServer.parse_list_filters "tag:a,b opp:o1 task:t2 limit:12" =
      { tags := some ["a", "b"], opportunity_id := some "o1",
        task_id := some "t2", limit := some 12 } ∧
    ChatServer.parse_list_filters "tag:a tag:b" =
      { tags := some ["a"], opportunity_id := Option.none,
        task_id := Option.none, limit := Option.none } ∧
    ChatServer.parse_list_filters "limit:x limit:7" =
      { tags := Option.none, opportunity_id := Option.none,
        task_id := Option.none, limit := some 7 } := by
  refine ⟨by decide, by decide, by decide, by decide, by decide⟩

/-- C3 counterexample: for the unknown token `"nod-create"` the suggestion
engine returns `/select-none`, not the node-create vocabulary entry; that
entry (the full usage string `/node-create <type> [name] [x,y]`) scores
`9/31`, which is below the `0.3` threshold. -/
theorem C3_counterexample_nod_create_suggestion :
    WorkflowServer.suggest_similar_workflow_command "nod-create" = some "/select-none" ∧
    "/select-none" ≠ "/node-create <type> [name] [x,y]" ∧
    similarityScore "nod-create" "/node-create <type> [name] [x,y]" < 3 / 10 := by
  refine ⟨by decide, by decide, ?_⟩
  have h1 : scoreNum "nod-create" "/node-create <type> [name] [x,y]" = 9 := by decide
  have h2 : scoreDen "nod-create" "/node-create <type> [name] [x,y]" = 31 := by decide
  rw [similarityScore_eq, h1, h2]
  norm_num

/-- C3 amended: the engine scores candidates as
`|set(unknown) ∩ set(candidate)| / max(len(unknown), len(candidate))`
(lowercased, slash-stripped) over the workflow vocabulary, whose entries
are the full usage strings of `command_descriptions`; for `"nod-create"`
the top suggestion is `/select-none` with score `6/11`, maximal over the
vocabulary, while the node-create entry scores `9/31 ≤ 0.3` and cannot be
suggested. -/
theorem C3_amended_nod_create_suggestion :
    WorkflowServer.suggest_similar_workflow_command "nod-create" = some "/select-none" ∧
    similarityScore "nod-create" "/select-none" = 6 / 11 ∧
    (∀ c ∈ WorkflowServer.command_descriptions.map Prod.fst,
      similarityScore "nod-create" c ≤ 6 / 11) ∧
    similarityScore "nod-create" "/node-create <type> [name] [x,y]" = 9 / 31 ∧
    ¬ ((9 : ℚ) / 31 > 3 / 10) := by
  refine ⟨by decide, ?_, ?_, ?_, by norm_num⟩
  · have h1 : scoreNum "nod-create" "/select-none" = 6 := by decide
    have h2 : scoreDen "nod-create" "/select-none" = 11 := by decide
    rw [similarityScore_eq, h1, h2]
    norm_num
  · intro c hc
    have hall : (WorkflowServer.command_descriptions.map Prod.fst).all
        (fun c => decide (11 * scoreNum "nod-create" c ≤ 6 * scoreDen "nod-create" c) &&
          decide (0 < scoreDen "nod-create" c)) = true := by decide
    have hco := List.all_eq_true.mp hall c hc
    simp only [Bool.and_eq_true, decide_eq_true_eq] at hco
    exact similarityScore_le_of_cross _ _ hco.1 hco.2
  · have h1 : scoreNum "nod-create" "/node-create <type> [name] [x,y]" = 9 := by decide
    have h2 : scoreDen "nod-create" "/node-create <type> [name] [x,y]" = 31 := by decide
    rw [similarityScore_eq, h1, h2]
    norm_num

/-- C3 witness: the maximality conjunct instantiated at the returned
candidate `/select-none` and at the node-create vocabulary entry. -/
theorem C3_amended_nod_create_suggestion_witness :
    WorkflowServer.suggest_similar_workflow_command "nod-create" = some "/select-none" ∧
    similarityScore "nod-create" "/select-none" ≤ 6 / 11 ∧
    similarityScore "nod-create" "/node-create <type> [name] [x,y]" ≤ 6 / 11 := by
  obtain ⟨h1, -, h3, -, -⟩ := C3_amended_nod_create_suggestion
  exact ⟨h1, h3 "/select-none" (by decide),
    h3 "/node-create <type> [name] [x,y]" (by decide)⟩

/-- C7: `/task-priority task1 extreme` validates to `valid = false` with an
error naming the allowed set `low, normal, high, urgent`; and in general an
enumerated-value parameter (node type, flowline type, task priority,
matrix quadrant) outside its closed allowed-set yields `valid = false`
with the error in `errors` and an empty `warnings` list. -/
theorem C7_enumerated_values_blocking_error :
    WorkflowServer.validate_workflow_command
        (WorkflowServer.parse_workflow_command "/task-priority task1 extreme") =
      .result false
        ["Invalid priority 'extreme'. Valid priorities: low, normal, high, urgent"]
        [] [] ∧
    (∀ task p : String, p ≠ "" → ¬ p ∈ WorkflowServer.validValuesAt "task_priorities" →
      WorkflowServer.validate_workflow_command
        (.matched ⟨"task-priority", [("task", .str task), ("priority", .str p)],
          "set_task_priority", [some task, some p], ""⟩) =
      .result false
        ["Invalid priority '" ++ p ++ "'. Valid priorities: " ++
          String.intercalate ", " (WorkflowServer.validValuesAt "task_priorities")]
        [] []) ∧
    (∀ (t : String) (nm : PValue), t ≠ "" →
      ¬ t ∈ WorkflowServer.validValuesAt "node_types" →
      WorkflowServer.validate_workflow_command
        (.matched ⟨"node-create",
          [("type", .str t), ("name", nm), ("x", .none), ("y", .none)],
          "create_node", [some t], ""⟩) =
      .result false
        ["Invalid node type '" ++ t ++ "'. Valid types: " ++
          String.intercalate ", " (WorkflowServer.validValuesAt "node_types")]
        [] []) ∧
    (∀ src tgt ft : String, ¬ ft ∈ WorkflowServer.validValuesAt "flowline_types" →
      WorkflowServer.validate_workflow_command
        (.matched ⟨"flowline-create",
          [("source", .str src), ("target", .str tgt), ("type", .str ft)],
          "create_flowline", [some src, some tgt, some ft], ""⟩) =
      .result false
        ["Invalid flowline type '" ++ ft ++ "'. Valid types: " ++
          String.intercalate ", " (WorkflowServer.validValuesAt "flowline_types")]
        [] []) ∧
    (∀ task q : String, q ≠ "" → ¬ q ∈ WorkflowServer.validValuesAt "matrix_quadrants" →
      WorkflowServer.validate_workflow_command
        (.matched ⟨"matrix-move", [("task", .str task), ("quadrant", .str q)],
          "move_task_in_matrix", [some task, some q], ""⟩) =
      .result false
        ["Invalid matrix quadrant '" ++ q ++ "'. Valid quadrants: " ++
          String.intercalate ", " (WorkflowServer.validValuesAt "matrix_quadrants")]
        [] []) := by
  refine ⟨by decide, ?_, ?_, ?_, ?_⟩
  · intro task p hp hm
    simp [WorkflowServer.validate_workflow_command,
      WorkflowServer.validate_workflow_command_core,
      WorkflowServer.WfParseResult.is_workflow_command,
      WorkflowServer.WfParseResult.commandTypeField,
      WorkflowServer.WfParseResult.parametersField, pget, pvTruthy, pvInStrList,
      pvFormat, WorkflowServer.generate_workflow_suggestions, List.lookup,
      pure, Except.pure, bind, Except.bind, hp, hm]
  · intro t nm ht hm
    simp [WorkflowServer.validate_workflow_command,
      WorkflowServer.validate_workflow_command_core,
      WorkflowServer.WfParseResult.is_workflow_command,
      WorkflowServer.WfParseResult.commandTypeField,
      WorkflowServer.WfParseResult.parametersField, pget, pvTruthy, pvInStrList,
      pvFormat, WorkflowServer.generate_workflow_suggestions, List.lookup,
      pure, Except.pure, bind, Except.bind, ht, hm]
  · intro src tgt ft hm
    simp [WorkflowServer.validate_workflow_command,
      WorkflowServer.validate_workflow_command_core,
      WorkflowServer.WfParseResult.is_workflow_command,
      WorkflowServer.WfParseResult.commandTypeField,
      WorkflowServer.WfParseResult.parametersField, pget, pgetD, pvTruthy,
      pvInStrList, pvFormat, WorkflowServer.generate_workflow_suggestions,
      List.lookup, pure, Except.pure, bind, Except.bind, hm]
  · intro task q hq hm
    simp [WorkflowServer.validate_workflow_command,
      WorkflowServer.validate_workflow_command_core,
      WorkflowServer.WfParseResult.is_workflow_command,
      WorkflowServer.WfParseResult.commandTypeField,
      WorkflowServer.WfParseResult.parametersField, pget, pvTruthy, pvInStrList,
      pvFormat, WorkflowServer.generate_workflow_suggestions, List.lookup,
      pure, Except.pure, bind, Except.bind, hq, hm]

/-- C7 witness: the general enumerated-value statements instantiated at
concrete out-of-set values. -/
theorem C7_enumerated_values_blocking_error_witness :
    WorkflowServer.validate_workflow_command
        (.matched ⟨"task-priority", [("task", .str "task1"), ("priority", .str "extreme")],
          "set_task_priority", [some "task1", some "extreme"], ""⟩) =
      .result false
        ["Invalid priority '" ++ "extreme" ++ "'. Valid priorities: " ++
          String.intercalate ", " (WorkflowServer.validValuesAt "task_priorities")]
        [] [] ∧
    WorkflowServer.validate_workflow_command
        (.matched ⟨"node-create",
          [("type", .str "oval"), ("name", .none), ("x", .none), ("y", .none)],
          "create_node", [some "oval"], ""⟩) =
      .result false
        ["Invalid node type '" ++ "oval" ++ "'. Valid types: " ++
          String.intercalate ", " (WorkflowServer.validValuesAt "node_types")]
        [] [] ∧
    WorkflowServer.validate_workflow_command
        (.matched ⟨"flowline-create",
          [("source", .str "A"), ("target", .str "B"), ("type", .str "zigzag")],
          "create_flowline", [some "A", some "B", some "zigzag"], ""⟩) =
      .result false
        ["Invalid flowline type '" ++ "zigzag" ++ "'. Valid types: " ++
          String.intercalate ", " (WorkflowServer.validValuesAt "flowline_types")]
        [] [] ∧
    WorkflowServer.validate_workflow_command
        (.matched ⟨"matrix-move", [("task", .str "t1"), ("quadrant", .str "mid")],
          "move_task_in_matrix", [some "t1", some "mid"], ""⟩) =
      .result false
        ["Invalid matrix quadrant '" ++ "mid" ++ "'. Valid quadrants: " ++
          String.intercalate ", " (WorkflowServer.validValuesAt "matrix_quadrants")]
        [] [] := by
  obtain ⟨-, h1, h2, h3, h4⟩ := C7_enumerated_values_blocking_error
  exact ⟨h1 "task1" "extreme" (by decide) (by decide),
    h2 "oval" .none (by decide) (by decide),
    h3 "A" "B" "zigzag" (by decide),
    h4 "t1" "mid" (by decide) (by decide)⟩

/-- C8: the note-worthiness assessment is additive and capped at `1.0`,
with `worthy` meaning the (uncapped) score exceeds `0.5`; any 60-character
text containing `"need to"` collects at least the `+0.3` length and `+0.4`
action-keyword increments, so it scores at least `0.7` and is worthy. -/
theorem C8_note_worthiness_additive_capped :
    (∀ (text : String) (entities : List ChatServer.Entity) (topics : List String),
      (ChatServer.assess_note_worthiness text entities topics).score ≤ 1) ∧
    (∀ (text : String) (entities : List ChatServer.Entity) (topics : List String),
      text.length = 60 → pyContainsSub (pyLower text) "need to" = true →
      (7 : ℚ) / 10 ≤ (ChatServer.assess_note_worthiness text entities topics).score ∧
      (ChatServer.assess_note_worthiness text entities topics).worthy = true) := by
  constructor
  · intro text entities topics
    simp only [ChatServer.assess_note_worthiness]
    exact min_le_right _ _
  · intro text entities topics h hc
    have hc2 : ChatServer.action_words.any (fun w => pyContainsSub (pyLower text) w) = true :=
      List.any_eq_true.mpr ⟨"need to", by decide, hc⟩
    simp only [ChatServer.assess_note_worthiness, hc2, if_true]
    rw [h]
    norm_num [le_min_iff]
    split_ifs <;> norm_num

/-- C8 witness: the cap and the worthiness instance at a concrete
60-character text containing `"need to"`. -/
theorem C8_note_worthiness_additive_capped_witness :
    (ChatServer.assess_note_worthiness
      "We need to finish the quarterly report by Friday morning, ok" [] []).score ≤ 1 ∧
    (7 : ℚ) / 10 ≤ (ChatServer.assess_note_worthiness
      "We need to finish the quarterly report by Friday morning, ok" [] []).score ∧
    (ChatServer.assess_note_worthiness
      "We need to finish the quarterly report by Friday morning, ok" [] []).worthy = true := by
  obtain ⟨h1, h2⟩ := C8_note_worthiness_additive_capped
  exact ⟨h1 _ [] [], h2 _ [] [] (by decide) (by decide)⟩

/-- C1 counterexample: the spec's designated ambiguous input
`/node-create process "Test Node"` matches exactly one grammar rule of the
workflow registry (`node-create`), and `parse_workflow_command` returns an
ordinary single-rule result for it — no multi-match condition exists to be
reported, and no result variant carries more than one rule. -/
theorem C1_counterexample_no_multimatch_for_spec_example :
    matchingRules WorkflowServer.command_patterns
      (pyStrip "/node-create process \"Test Node\"").data = ["node-create"] ∧
    WorkflowServer.parse_workflow_command "/node-create process \"Test Node\"" =
      .matched ⟨"node-create",
        [("type", .str "process"), ("name", .str "Test Node"),
         ("x", .none), ("y", .none)],
        "create_node",
        [some "process", some "Test Node", Option.none, Option.none, Option.none],
        "/node-create process \"Test Node\""⟩ := by
  refine ⟨by decide, by decide⟩

/-- C1 amended: `parse_workflow_command` resolves the registry by first
match in iteration order and returns a result carrying that single rule
(its name is the head of the list of all matching rules); in particular
the spec's example input matches only the `node-create` rule. -/
theorem C1_amended_first_match_single_rule :
    (∀ (input name : String) (gs : List (Option String)),
      findRuleMatch WorkflowServer.command_patterns (pyStrip input).data = some (name, gs) →
      pyStartsWithSlash (pyStrip input) = true →
      (∃ rest, matchingRules WorkflowServer.command_patterns (pyStrip input).data =
        name :: rest) ∧
      WorkflowServer.parse_workflow_command input =
        .matched ⟨name, (WorkflowServer.parse_workflow_match name gs).1,
          (WorkflowServer.parse_workflow_match name gs).2, gs, pyStrip input⟩) ∧
    matchingRules WorkflowServer.command_patterns
      (pyStrip "/node-create process \"Test Node\"").data = ["node-create"] := by
  refine ⟨?_, by decide⟩
  intro input name gs hfind hslash
  refine ⟨findRuleMatch_head _ _ _ _ hfind, ?_⟩
  rw [WorkflowServer.parse_workflow_command, WorkflowServer.parse_workflow_command_core]
  simp only [hslash, hfind, Bool.not_true, Bool.false_eq_true, if_false,
    bind, Except.bind, pure, Except.pure]

/-- C1 witness: the first-match behavior at a concrete matched input. -/
theorem C1_amended_first_match_single_rule_witness :
    (∃ rest, matchingRules WorkflowServer.command_patterns
      (pyStrip "/matrix-enter").data = "matrix-enter" :: rest) ∧
    WorkflowServer.parse_workflow_command "/matrix-enter" =
      .matched ⟨"matrix-enter", [], "enter_matrix_mode", [], "/matrix-enter"⟩ := by
  have h := C1_amended_first_match_single_rule.1 "/matrix-enter" "matrix-enter" []
    (by decide) (by decide)
  exact ⟨h.1, by rw [h.2]; decide⟩

/-- C9: a `/`-input matched by no workflow grammar is classified by the
keyword gate: it becomes an `unknown_workflow_command` result (with
`is_workflow_command = true`, an error message and a suggestion) exactly
when the lowercased input contains one of the fourteen fixed keywords, and
a `non_workflow_command` result (`is_workflow_command = false`,
`should_process_with_llm = false`) otherwise. -/
theorem C9_unknown_vs_non_workflow_keyword_gate :
    (∀ input : String,
      pyStartsWithSlash (pyStrip input) = true →
      findRuleMatch WorkflowServer.command_patterns (pyStrip input).data = Option.none →
      WorkflowServer.parse_workflow_command input =
        (if WorkflowServer.workflow_keywords.any
            (fun kw => pyContainsSub (pyLower (pyStrip input)) kw) then
          .unknownWorkflow (pyFirstTok (pyStrip input))
            ("Unknown workflow command: " ++ pyFirstTok (pyStrip input))
            (WorkflowServer.suggest_similar_workflow_command (pyFirstTok (pyStrip input)))
        else .nonWorkflow) ∧
      ((∃ c e s, WorkflowServer.parse_workflow_command input =
          .unknownWorkflow c e s) ↔
        WorkflowServer.workflow_keywords.any
          (fun kw => pyContainsSub (pyLower (pyStrip input)) kw) = true)) ∧
    WorkflowServer.workflow_keywords =
      ["node", "task", "flow", "tag", "workflow", "matrix", "select", "view",
       "create", "delete", "move", "connect", "save", "load"] ∧
    (∀ c e s, (WorkflowServer.WfParseResult.unknownWorkflow c e s).is_workflow_command
      = true) ∧
    WorkflowServer.WfParseResult.nonWorkflow.is_workflow_command = false ∧
    WorkflowServer.WfParseResult.nonWorkflow.rtype = some "non_workflow_command" ∧
    WorkflowServer.WfParseResult.nonWorkflow.should_process_with_llm = some false := by
  refine ⟨?_, rfl, fun c e s => rfl, rfl, rfl, rfl⟩
  intro input h1 h2
  have heq : WorkflowServer.parse_workflow_command input =
      (if WorkflowServer.workflow_keywords.any
          (fun kw => pyContainsSub (pyLower (pyStrip input)) kw) then
        .unknownWorkflow (pyFirstTok (pyStrip input))
          ("Unknown workflow command: " ++ pyFirstTok (pyStrip input))
          (WorkflowServer.suggest_similar_workflow_command (pyFirstTok (pyStrip input)))
      else .nonWorkflow) := by
    rw [WorkflowServer.parse_workflow_command, WorkflowServer.parse_workflow_command_core]
    simp only [h1, h2, Bool.not_true, Bool.false_eq_true, if_false,
      pySplitWs_head_of_slash _ h1, bind, Except.bind, pure, Except.pure]
    split_ifs <;> rfl
  refine ⟨heq, ?_⟩
  rw [heq]
  rcases hkw : WorkflowServer.workflow_keywords.any
      (fun kw => pyContainsSub (pyLower (pyStrip input)) kw) with _ | _ <;>
    simp [hkw]

/-- C9 witness: the keyword gate at concrete unmatched inputs — an input
containing the keyword `node` is an unknown workflow command with error
and suggestion; an input containing no keyword is a non-workflow
command. -/
theorem C9_unknown_vs_non_workflow_keyword_gate_witness :
    WorkflowServer.parse_workflow_command "/node-foo" =
      .unknownWorkflow "/node-foo" ("Unknown workflow command: " ++ "/node-foo")
        (WorkflowServer.suggest_similar_workflow_command "/node-foo") ∧
    WorkflowServer.parse_workflow_command "/qqq" = .nonWorkflow := by
  have h1 := ((C9_unknown_vs_non_workflow_keyword_gate).1 "/node-foo"
    (by decide) (by decide)).1
  have h2 := ((C9_unknown_vs_non_workflow_keyword_gate).1 "/qqq"
    (by decide) (by decide)).1
  constructor
  · rw [h1, if_pos (by decide)]; decide
  · rw [h2, if_neg (by decide)]

/-- C2: both parse entry points are total and never surface an exception:
the `try`-body always returns a structured result (so the `except`
conversion, which would yield an `error` result with
`should_process_with_llm = true`, is never exercised), no input produces
an `error`-typed result, and the worst case for a malformed `/`-input is
an unknown-command result whose suggestion may be `None`, as for the
input `"/"`. -/
theorem C2_parse_total_never_error :
    (∀ input : String,
      ChatServer.parse_chat_input_core input = .ok (ChatServer.parse_chat_input input) ∧
      (ChatServer.parse_chat_input input).rtype ≠ some "error") ∧
    (∀ input : String,
      WorkflowServer.parse_workflow_command_core input =
        .ok (WorkflowServer.parse_workflow_command input) ∧
      (WorkflowServer.parse_workflow_command input).rtype ≠ some "error") ∧
    (∀ e : String,
      (ChatServer.ChatParseResult.errorResult e).should_process_with_llm = some true ∧
      (WorkflowServer.WfParseResult.errorResult e).should_process_with_llm = some true) ∧
    ChatServer.parse_chat_input "/" =
      .unknownCommand "/" "Unknown command: /" Option.none := by
  refine ⟨?_, ?_, fun e => ⟨rfl, rfl⟩, by decide⟩
  · intro input
    rcases hcore : ChatServer.parse_chat_input_core input with e | r
    · exfalso
      rw [ChatServer.parse_chat_input_core] at hcore
      rcases hslash : pyStartsWithSlash (pyStrip input) with _ | _
      · simp [hslash, pure, Except.pure, bind, Except.bind] at hcore
      · simp only [hslash, Bool.not_true, Bool.false_eq_true, if_false] at hcore
        rcases hfind : findRuleMatch ChatServer.command_patterns (pyStrip input).data
          with _ | p
        · rw [hfind] at hcore
          rw [pySplitWs_head_of_slash _ hslash] at hcore
          simp [bind, Except.bind, pure, Except.pure] at hcore
        · rw [hfind] at hcore
          simp [bind, Except.bind, pure, Except.pure] at hcore
    · have hp : ChatServer.parse_chat_input input = r := by
        rw [ChatServer.parse_chat_input, hcore]
      refine ⟨by rw [hp], ?_⟩
      rw [hp]
      rw [ChatServer.parse_chat_input_core] at hcore
      rcases hslash : pyStartsWithSlash (pyStrip input) with _ | _
      · simp only [hslash, Bool.not_false, if_true, pure, Except.pure, bind, Except.bind,
          Except.ok.injEq] at hcore
        rw [← hcore]; simp [ChatServer.ChatParseResult.rtype]
      · simp only [hslash, Bool.not_true, Bool.false_eq_true, if_false] at hcore
        rcases hfind : findRuleMatch ChatServer.command_patterns (pyStrip input).data
          with _ | p
        · rw [hfind] at hcore
          rw [pySplitWs_head_of_slash _ hslash] at hcore
          simp only [bind, Except.bind, pure, Except.pure, Except.ok.injEq] at hcore
          rw [← hcore]; simp [ChatServer.ChatParseResult.rtype]
        · rw [hfind] at hcore
          simp only [bind, Except.bind, pure, Except.pure, Except.ok.injEq] at hcore
          rw [← hcore]; simp [ChatServer.ChatParseResult.rtype]
  · intro input
    rcases hcore : WorkflowServer.parse_workflow_command_core input with e | r
    · exfalso
      rw [WorkflowServer.parse_workflow_command_core] at hcore
      rcases hslash : pyStartsWithSlash (pyStrip input) with _ | _
      · simp [hslash, pure, Except.pure, bind, Except.bind] at hcore
      · simp only [hslash, Bool.not_true, Bool.false_eq_true, if_false] at hcore
        rcases hfind : findRuleMatch WorkflowServer.command_patterns (pyStrip input).data
          with _ | p
        · rw [hfind] at hcore
          rw [pySplitWs_head_of_slash _ hslash] at hcore
          rcases hkw : WorkflowServer.workflow_keywords.any
              (fun kw => pyContainsSub (pyLower (pyStrip input)) kw) with _ | _ <;>
            simp [hkw, bind, Except.bind, pure, Except.pure] at hcore
        · rw [hfind] at hcore
          simp [bind, Except.bind, pure, Except.pure] at hcore
    · have hp : WorkflowServer.parse_workflow_command input = r := by
        rw [WorkflowServer.parse_workflow_command, hcore]
      refine ⟨by rw [hp], ?_⟩
      rw [hp]
      rw [WorkflowServer.parse_workflow_command_core] at hcore
      rcases hslash : pyStartsWithSlash (pyStrip input) with _ | _
      · simp only [hslash, Bool.not_false, if_true, pure, Except.pure, bind, Except.bind,
          Except.ok.injEq] at hcore
        rw [← hcore]; simp [WorkflowServer.WfParseResult.rtype]
      · simp only [hslash, Bool.not_true, Bool.false_eq_true, if_false] at hcore
        rcases hfind : findRuleMatch WorkflowServer.command_patterns (pyStrip input).data
          with _ | p
        · rw [hfind] at hcore
          rw [pySplitWs_head_of_slash _ hslash] at hcore
          rcases hkw : WorkflowServer.workflow_keywords.any
              (fun kw => pyContainsSub (pyLower (pyStrip input)) kw) with _ | _
          · simp only [hkw, Bool.false_eq_true, if_false, pure, Except.pure, bind,
              Except.bind, Except.ok.injEq] at hcore
            rw [← hcore]; simp [WorkflowServer.WfParseResult.rtype]
          · simp only [hkw, if_true, bind, Except.bind, pure, Except.pure,
              Except.ok.injEq] at hcore
            rw [← hcore]; simp [WorkflowServer.WfParseResult.rtype]
        · rw [hfind] at hcore
          simp only [bind, Except.bind, pure, Except.pure, Except.ok.injEq] at hcore
          rw [← hcore]; simp [WorkflowServer.WfParseResult.rtype]

/-- C10: every input parsed as a matrix-move command has a quadrant
parameter of the shape `\w+[-_]\w+` — a nonempty word-character run, one
`-` or `_`, and a nonempty word-character run; consequently the quadrant
can contain at most one hyphen, so the validator's allowed quadrants
`not-urgent-important` and `not-urgent-not-important` (which have two and
three hyphens) are never produced by the parser, although both are members
of the allowed quadrant set. -/
theorem C10_matrix_move_quadrant_shape :
    (∀ (input : String) (c : WorkflowServer.WfCommand),
          WorkflowServer.parse_workflow_command input = .matched c →
          c.command_type = "matrix-move" →
          ∃ q : String, pget c.parameters "quadrant" = .str q ∧
            (∃ w1 d w2, q.data = w1 ++ d :: w2 ∧ w1 ≠ [] ∧ w2 ≠ [] ∧
              (∀ a ∈ w1, isWordChar a = true) ∧ (∀ a ∈ w2, isWordChar a = true) ∧
              (d = '-' ∨ d = '_')) ∧
            q ≠ "not-urgent-important" ∧ q ≠ "not-urgent-not-important"  ) ∧
    "not-urgent-important" ∈ WorkflowServer.validValuesAt "matrix_quadrants" ∧
    "not-urgent-not-important" ∈ WorkflowServer.validValuesAt "matrix_quadrants" := by
  refine ⟨?_, by decide, by decide⟩
  intro input c hp hct
  obtain ⟨name, gs, hfind, hc⟩ := parse_workflow_matched_inv input c hp
  have hname : name = "matrix-move" := by rw [hc] at hct; simpa using hct
  subst hname
  obtain ⟨r, hrmem, hrname, hfm⟩ := findRuleMatch_rule _ _ _ _ hfind
  have hreg : ∀ x ∈ WorkflowServer.command_patterns,
      x.name = "matrix-move" → x = ⟨"matrix-move", matrixMoveRE, 2⟩ := by decide
  rw [hreg r hrmem hrname] at hfm
  obtain ⟨p, hpmem, hpnil, hgs⟩ := reFullMatch_outcome hfm
  obtain ⟨t0, q, hcaps, w1, d, w2, hsplit, hw1, hw2, ha1, ha2, hd⟩ := matrixMove_caps hpmem
  have hrange : List.range 2 = [0, 1] := by decide
  rw [hrange, hcaps] at hgs
  have hgs2 : gs = [some (String.mk t0), some (String.mk q)] := by
    rw [hgs]; rfl
  have hshape : ∃ w1 d w2, (String.mk q).data = w1 ++ d :: w2 ∧ w1 ≠ [] ∧ w2 ≠ [] ∧
      (∀ a ∈ w1, isWordChar a = true) ∧ (∀ a ∈ w2, isWordChar a = true) ∧
      (d = '-' ∨ d = '_') :=
    ⟨w1, d, w2, hsplit, hw1, hw2, ha1, ha2, hd⟩
  refine ⟨String.mk q, ?_, hshape, quadShape_ne_hyphenated _ hshape⟩
  rw [hc, hgs2]
  simp [WorkflowServer.parse_workflow_match, pget, List.lookup, gidx, pvRaw]

/-- C10 witness: the shape conclusion at the concrete input
`/matrix-move t urgent-important`. -/
theorem C10_matrix_move_quadrant_shape_witness :
    ∃ q : String,
      pget (WorkflowServer.WfCommand.mk "matrix-move"
        [("task", .str "t"), ("quadrant", .str "urgent-important")]
        "move_task_in_matrix" [some "t", some "urgent-important"]
        "/matrix-move t urgent-important").parameters "quadrant" = .str q ∧
      (∃ w1 d w2, q.data = w1 ++ d :: w2 ∧ w1 ≠ [] ∧ w2 ≠ [] ∧
        (∀ a ∈ w1, isWordChar a = true) ∧ (∀ a ∈ w2, isWordChar a = true) ∧
        (d = '-' ∨ d = '_')) ∧
      q ≠ "not-urgent-important" ∧ q ≠ "not-urgent-not-important" :=
  C10_matrix_move_quadrant_shape.1 "/matrix-move t urgent-important" _ (by decide) rfl

end UIProcess
